import Mathlib

/-!
# IPFS_Example: node lifecycle and content exchange

A shallow embedding of `IpfsLink/IpfsLink.go` and `main.go`.

The Go code is a thin layer over external collaborators (the kubo node, the
file system, the content network).  Every call into a collaborator is recorded
as an `Event`, in program order, and the result of every fallible call is read
from an `Env` (one field per call site), so that each function of the program
becomes a pure function from its arguments, the environment and the process
state to the events it emits, the new state and its Go result.  A Go panic is
an explicit `Outcome.panicked`.
-/

namespace IPFS_Test

/-! ## Data model -/

/-- Byte slices (`[]byte`), one natural number below 256 per byte. -/
abbrev Bytes := List Nat

/-- Go `error` values, identified by their message; a nil error is `none`. -/
abbrev GoError := String

/-- Durations (`time.Duration`), in nanoseconds. -/
abbrev Duration := Nat

/-- Instants (`time.Time`), in nanoseconds since the epoch. -/
abbrev Time := Nat

/-- The Go constant `time.Second`. -/
def Second : Duration := 1000000000

/-- The conversion `[]byte(s)` for the ASCII string literals of the program. -/
def bytesOf (s : String) : Bytes := s.toList.map Char.toNat

/-- Peer address info (`peer.AddrInfo`): a peer identifier and its addresses. -/
structure AddrInfo where
  ID : String
  Addrs : List String
  deriving DecidableEq, Repr

/-- Content identifiers (`cid.Cid`, a struct of one binary string). -/
structure Cid where
  str : Bytes
  deriving DecidableEq, Repr

/-- The sixteen digits of the base16 alphabet. -/
def hexDigit (n : Nat) : Char :=
  match n % 16 with
  | 0 => '0' | 1 => '1' | 2 => '2' | 3 => '3' | 4 => '4' | 5 => '5' | 6 => '6' | 7 => '7'
  | 8 => '8' | 9 => '9' | 10 => 'a' | 11 => 'b' | 12 => 'c' | 13 => 'd' | 14 => 'e'
  | _ => 'f'

/-- The method `Cid.String()`: the string form of an identifier, a text
encoding of its bytes (base16 in this model). -/
def Cid.String (c : Cid) : String :=
  String.mk (c.str.flatMap (fun b => [hexDigit (b / 16), hexDigit b]))

/-- Resolved content paths (`icorepath.Resolved`) below `/ipfs/`. -/
structure ResolvedPath where
  cid : Cid
  deriving DecidableEq, Repr

/-- The function `icorepath.IpfsPath`: the path of an identifier. -/
def IpfsPathOf (c : Cid) : ResolvedPath := ⟨c⟩

/-- The method `Resolved.Cid()`. -/
def ResolvedPath.Cid (p : ResolvedPath) : Cid := p.cid

/-- File handles (`files.Node`), kept by the bytes they give access to. -/
structure FileNode where
  bytes : Bytes
  deriving DecidableEq, Repr

/-- Contexts (`context.Context`), by the way they were derived. -/
inductive Context where
  | background : Context
  | withCancel (parent : Context) : Context
  | withDeadline (parent : Context) (d : Time) : Context
  deriving DecidableEq, Repr

/-- The method `Context.Deadline()`: a derived deadline never extends the
parent's one (`context.WithDeadline` keeps the earlier of the two). -/
def Context.deadline : Context → Option Time
  | .background => none
  | .withCancel p => p.deadline
  | .withDeadline p d =>
    match p.deadline with
    | none => some d
    | some dp => some (min dp d)

/-- Running kubo nodes (`core.IpfsNode`): the fields the program touches. -/
structure IpfsNode where
  Identity : String
  PNetFingerprint : Option Bytes
  deriving DecidableEq, Repr

/-- Core API handles (`icore.CoreAPI`), as built by `coreapi.NewCoreAPI` over a node. -/
structure CoreAPI where
  nd : IpfsNode
  deriving DecidableEq, Repr

/-- The struct `bootstrap.BootstrapConfig`; `BootstrapPeers` is a closure. -/
structure BootstrapConfig where
  MinPeerThreshold : Int
  Period : Duration
  ConnectionTimeout : Duration
  BootstrapPeers : Unit → List AddrInfo

/-- Routing options of `core.BuildCfg`. -/
inductive RoutingOption where
  | DHTOption : RoutingOption
  | DHTClientOption : RoutingOption
  deriving DecidableEq, Repr

/-- The struct `IpfsLink`; the interface and pointer fields may be nil. -/
structure IpfsLink where
  Ctx : Context
  IpfsCore : Option CoreAPI
  IpfsNode : Option IpfsNode
  deriving DecidableEq, Repr

/-- How a detached `Provide` ends. -/
inductive ProvideOutcome where
  | success : ProvideOutcome
  | failure (err : GoError) : ProvideOutcome
  | neverCompletes : ProvideOutcome
  deriving DecidableEq, Repr

/-! ## Effects -/

/-- Calls into the collaborators, with the arguments passed and, where the
model needs it, the result obtained. -/
inductive Event where
  | newPluginLoader (pluginPath : String) : Event
  | pluginsInit : Event
  | pluginsInject : Event
  | mkdirTemp (dir pattern : String) : Event
  | configInit (nBitsForKeypair : Nat) : Event
  | setBootstrapPeers (peers : List AddrInfo) : Event
  | fsrepoInit (repoPath : String) : Event
  | printErr (format : String) : Event
  | printf (format : String) : Event
  | osWriteFile (name : String) (data : Bytes) (perm : Nat) (res : Option GoError) : Event
  | fsrepoOpen (repoPath : String) : Event
  | newNode (ctx : Context) (online : Bool) (routing : RoutingOption) (repoPath : String) : Event
  | nodeBootstrap (node : IpfsNode) (cfg : BootstrapConfig) : Event
  | newCoreAPI (node : IpfsNode) : Event
  | swarmConnect (ctx : Context) (p : AddrInfo) (res : Option GoError) : Event
  | unixfsAdd (ctx : Context) (data : Bytes) : Event
  | goProvide (ctx : Context) (path : ResolvedPath) : Event
  | unixfsGet (ctx : Context) (path : ResolvedPath) : Event
  | filesWriteTo (nd : Option FileNode) (fpath : String) (res : Option GoError) : Event
  | osReadFile (name : String) : Event
  | unmarshalAddrInfo (data : Bytes) : Event
  | unmarshalCid (data : Bytes) : Event
  | marshalPeerInfo (node : IpfsNode) : Event
  | marshalCid (c : Cid) : Event
  | osStat (name : String) : Event
  | osRemove (name : String) : Event
  | osOpenFile (name : String) (flag : Nat) (perm : Nat) : Event
  | fileWrite (name : String) (data : Bytes) : Event
  | fileClose (name : String) : Event
  | stdinScan : Event

/-- Results of the fallible collaborator calls, one field per call site.
An `Option GoError` is the returned error (`none` is nil). -/
structure Env where
  newPluginLoader : Option GoError
  pluginsInit : Option GoError
  pluginsInject : Option GoError
  mkdirTemp : Except GoError String
  configInit : Option GoError
  fsrepoInit : Option GoError
  osWriteFile : Option GoError
  fsrepoOpen : Option GoError
  newNode : Except GoError IpfsNode
  newCoreAPI : Option GoError
  swarmConnect : Option GoError
  cidOf : Bytes → Cid
  unixfsAdd : Option GoError
  provide : ProvideOutcome
  getFault : Option (Option FileNode × GoError)
  filesWriteTo : Option GoError
  now : Time
  osReadFile : String → Bytes × Option GoError
  unmarshalAddrInfo : Bytes → Except GoError AddrInfo
  unmarshalCid : Bytes → Cid × Option GoError
  marshalPeerInfo : IpfsNode → Bytes × Option GoError
  marshalCid : Cid → Bytes × Option GoError
  osStatNotExist : Bool
  osOpenFile : String → Option GoError
  fileWrite : String → Option GoError
  fileClose : String → Option GoError

/-- State that outlives a call.  `loadPluginsOnce` is the package variable of
the process: whether its `Do` has run.  `blocks` and `links` are the state of
the content network, an external collaborator, as far as `unixfsAdd`,
`unixfsGet` and the explicit connect need it: which node holds which block
under which identifier, and which nodes are connected. -/
structure World where
  loadPluginsOnce : Bool
  blocks : List (String × Cid × Bytes)
  links : List (String × String)

/-- How a Go call ends: it returns its results, or it panics. -/
inductive Outcome (α : Type) where
  | returned (a : α) : Outcome α
  | panicked (msg : String) : Outcome α

/-- One call of a function of the program: the events it emitted, in order,
the state it left, and how it ended. -/
structure Run (α : Type) where
  events : List Event
  world : World
  out : Outcome α

/-! ## `IpfsLink/IpfsLink.go` -/

/-- The function `filepath.Join` on two elements: empty elements are ignored
(the program joins `""` and `"plugins"`). -/
def filepathJoin (a b : String) : String :=
  if a = "" then b else if b = "" then a else a ++ "/" ++ b

/-- Translation of `setupPlugins`. -/
def setupPlugins (env : Env) (externalPluginsPath : String) : List Event × Option GoError :=
  let e1 := Event.newPluginLoader (filepathJoin externalPluginsPath "plugins")
  match env.newPluginLoader with
  | some err => ([e1], some ("error loading plugins: " ++ err))
  | none =>
    match env.pluginsInit with
    | some err => ([e1, Event.pluginsInit], some ("error initializing plugins: " ++ err))
    | none =>
      match env.pluginsInject with
      | some err =>
        ([e1, Event.pluginsInit, Event.pluginsInject], some ("error initializing plugins: " ++ err))
      | none => ([e1, Event.pluginsInit, Event.pluginsInject], none)

/-- Translation of `createTempRepo`; the Go results `("", err)` and
`(repoPath, nil)` are `Except.error err` and `Except.ok repoPath`. -/
def createTempRepo (env : Env) (btstrap : List AddrInfo) : List Event × Except GoError String :=
  let e1 := Event.mkdirTemp "" "ipfs-shell"
  match env.mkdirTemp with
  | Except.error err => ([e1], Except.error ("failed to get temp dir: " ++ err))
  | Except.ok repoPath =>
    match env.configInit with
    | some err => ([e1, Event.configInit 2048], Except.error err)
    | none =>
      let evs := [e1, Event.configInit 2048, Event.setBootstrapPeers btstrap,
        Event.fsrepoInit repoPath]
      match env.fsrepoInit with
      | some err => (evs, Except.error ("failed to init ephemeral node: " ++ err))
      | none => (evs, Except.ok repoPath)

/-- Translation of `createNode`; the Go results `(nil, err)` and `(node, nil)`
are `Except.error err` and `Except.ok node`. -/
def createNode (env : Env) (ctx : Context) (repoPath : String) :
    List Event × Except GoError IpfsNode :=
  match env.fsrepoOpen with
  | some err => ([Event.fsrepoOpen repoPath], Except.error err)
  | none =>
    let evs := [Event.fsrepoOpen repoPath,
      Event.newNode ctx true RoutingOption.DHTOption repoPath]
    match env.newNode with
    | Except.error err => (evs, Except.error err)
    | Except.ok node => (evs, Except.ok node)

/-- The Go constant `os.O_WRONLY` (Linux). -/
def O_WRONLY : Nat := 0o1

/-- The Go constant `os.O_CREATE` (Linux). -/
def O_CREATE : Nat := 0o100

/-- The Go constant `os.O_APPEND` (Linux). -/
def O_APPEND : Nat := 0o2000

/-- The conversion `fs.FileMode(n)`: `FileMode` is a `uint32`. -/
def FileMode (n : Nat) : Nat := n % 2 ^ 32

/-- The method `FileMode.Perm()`: the nine Unix permission bits. -/
def FileModePerm (m : Nat) : Nat := m &&& 0o777

/-- The mode argument of the `os.WriteFile` call in `spawnEphemeral`. -/
def swarmKeyFileMode : Nat := FileMode (O_CREATE ||| O_WRONLY ||| O_APPEND)

/-- The string literal written to `swarm.key` by `spawnEphemeral`. -/
def swarmKeyFileText : String :=
  "/key/swarm/psk/1.0.0/\n/base16/\nedd99a84bbdd5c9cfc06bcc039d219b1000885ecba26901c02e7c8792bfaaa70"

/-- The string literal assigned to `node.PNetFingerprint` by `spawnEphemeral`. -/
def pnetFingerprintText : String :=
  "4c7dc2a2735a84b4b11ff5b39225aa771cea1abd3acf9b98708a25f286df851c"

/-- The `bootstrap.BootstrapConfig` literal built by `spawnEphemeral`. -/
def bootstrapConfigFor (btstrap : Option AddrInfo) : BootstrapConfig :=
  match btstrap with
  | some p =>
    { MinPeerThreshold := 1
      Period := 60 * Second
      ConnectionTimeout := 30 * Second
      BootstrapPeers := fun _ => [p] }
  | none =>
    { MinPeerThreshold := 0
      Period := 60 * Second
      ConnectionTimeout := 30 * Second
      BootstrapPeers := fun _ => [] }

/-- Translation of `spawnEphemeral`.  The result is the Go triple
`(api, node, err)`, each component possibly nil. -/
def spawnEphemeral (env : Env) (w : World) (ctx : Context) (btstrap : Option AddrInfo)
    (swarmKey : Bool) : Run (Option CoreAPI × Option IpfsNode × Option GoError) :=
  -- var onceErr error; loadPluginsOnce.Do(func() { onceErr = setupPlugins("") })
  let once : List Event × Option GoError :=
    if w.loadPluginsOnce then ([], none) else setupPlugins env ""
  let w1 : World := { w with loadPluginsOnce := true }
  match once.2 with
  | some onceErr => ⟨once.1, w1, Outcome.returned (none, none, some onceErr)⟩
  | none =>
    let m : List AddrInfo :=
      match btstrap with
      | some p => [p]
      | none => []
    let repo := createTempRepo env m
    match repo.2 with
    | Except.error err =>
      ⟨once.1 ++ repo.1, w1,
        Outcome.returned (none, none, some ("failed to create temp repo: " ++ err))⟩
    | Except.ok repoPath =>
      let evKey : List Event :=
        if swarmKey then
          [Event.osWriteFile (repoPath ++ "/swarm.key") (bytesOf swarmKeyFileText)
            swarmKeyFileMode env.osWriteFile]
        else []
      let built := createNode env ctx repoPath
      let evs1 := once.1 ++ repo.1 ++ [Event.printErr "repository : %s\n"] ++ evKey ++ built.1
      match built.2 with
      | Except.error err => ⟨evs1, w1, Outcome.returned (none, none, some err)⟩
      | Except.ok node0 =>
        let node : IpfsNode :=
          if swarmKey then { node0 with PNetFingerprint := some (bytesOf pnetFingerprintText) }
          else node0
        let bstcfg := bootstrapConfigFor btstrap
        let evs2 := evs1 ++ [Event.nodeBootstrap node bstcfg, Event.newCoreAPI node]
        -- api, err := coreapi.NewCoreAPI(node)
        let api : Option CoreAPI :=
          match env.newCoreAPI with
          | some _ => none
          | none => some ⟨node⟩
        match btstrap with
        | some p =>
          -- api.Swarm().Connect(ctx, *btstrap), on a nil api a nil dereference
          match api with
          | none => ⟨evs2, w1, Outcome.panicked "nil pointer dereference"⟩
          | some a =>
            let w2 : World :=
              match env.swarmConnect with
              | none => { w1 with links := (node.Identity, p.ID) :: w1.links }
              | some _ => w1
            ⟨evs2 ++ [Event.swarmConnect ctx p env.swarmConnect], w2,
              Outcome.returned (some a, some node, env.newCoreAPI)⟩
        | none => ⟨evs2, w1, Outcome.returned (api, some node, env.newCoreAPI)⟩

/-- One call of `spawnEphemeral`: its arguments and the environment it runs in. -/
structure SpawnCall where
  env : Env
  ctx : Context
  btstrap : Option AddrInfo
  swarmKey : Bool

/-- A sequence of `spawnEphemeral` calls in one process: every call starts in
the state the previous one left. -/
def spawnSequence (w : World) :
    List SpawnCall → List (Run (Option CoreAPI × Option IpfsNode × Option GoError))
  | [] => []
  | c :: cs =>
    let r := spawnEphemeral c.env w c.ctx c.btstrap c.swarmKey
    r :: spawnSequence r.world cs

/-- Translation of `InitNode`.  The result is the Go pair `(&ipfs, err)`. -/
def InitNode (env : Env) (w : World) (ipfsBootstrap : Bytes) (swarmKey : Bool) :
    Run (IpfsLink × Option GoError) :=
  let ct := Context.withCancel Context.background
  let finish (evs0 : List Event)
      (r : Run (Option CoreAPI × Option IpfsNode × Option GoError)) :
      Run (IpfsLink × Option GoError) :=
    match r.out with
    | Outcome.panicked msg => ⟨evs0 ++ r.events, r.world, Outcome.panicked msg⟩
    | Outcome.returned (ipfsA, nodeA, err) =>
      match err with
      | some e =>
        ⟨evs0 ++ r.events, r.world, Outcome.panicked ("failed to spawn peer node: " ++ e)⟩
      | none => ⟨evs0 ++ r.events, r.world, Outcome.returned (⟨ct, ipfsA, nodeA⟩, err)⟩
  if ipfsBootstrap.length > 0 then
    match env.unmarshalAddrInfo ipfsBootstrap with
    | Except.error e =>
      ⟨[Event.unmarshalAddrInfo ipfsBootstrap], w,
        Outcome.panicked ("couldn't Unmarshal bootstrap peer addr info, error : " ++ e)⟩
    | Except.ok idBootstrap =>
      finish [Event.unmarshalAddrInfo ipfsBootstrap]
        (spawnEphemeral env w ct (some idBootstrap) swarmKey)
  else
    -- if we got no bootstrap, we are the bootstrap
    finish [] (spawnEphemeral env w ct none swarmKey)

/-- Whether the node `a` is the node `b` or is connected to it. -/
def reaches (w : World) (a b : String) : Bool :=
  a == b || w.links.contains (a, b) || w.links.contains (b, a)

/-- Modelled from the spec: the content network's `Add` (the kubo call
`Unixfs().Add`, an external collaborator).  Ingestion either fails, or returns
the resolved path of the identifier `cidOf payload`, after storing the payload
under that identifier in the node's store unless the node already holds a
block of that identifier. -/
def unixfsAdd (env : Env) (w : World) (api : CoreAPI) (data : Bytes) :
    World × Except GoError ResolvedPath :=
  match env.unixfsAdd with
  | some err => (w, Except.error err)
  | none =>
    let c := env.cidOf data
    let w1 : World :=
      if w.blocks.any (fun b => b.1 == api.nd.Identity && b.2.1 == c) then w
      else { w with blocks := (api.nd.Identity, c, data) :: w.blocks }
    (w1, Except.ok (IpfsPathOf c))

/-- Modelled from the spec: the content network's `Resolve` (the kubo call
`Unixfs().Get`, an external collaborator).  Resolution either fails for a
reason of the network (timeout, cancellation, transport error), with whatever
handle accompanies the error, or looks the identifier up in the stores of the
nodes within reach and fails when none of them holds it. -/
def unixfsGet (env : Env) (w : World) (api : CoreAPI) (path : ResolvedPath) :
    Option FileNode × Option GoError :=
  match env.getFault with
  | some (f, err) => (f, some err)
  | none =>
    match w.blocks.find? (fun b => b.2.1 == path.cid && reaches w api.nd.Identity b.1) with
    | some b => (some ⟨b.2.2⟩, none)
    | none => (none, some "context deadline exceeded")

/-- The result of `files.WriteTo(nd, fpath)`: a nil node cannot be written,
any other write ends as the file system decides. -/
def filesWriteTo (env : Env) (nd : Option FileNode) : Option GoError :=
  match nd with
  | none => some "file type is not supported"
  | some _ => env.filesWriteTo

/-- Translation of `AddIPFS`.  The result is the Go pair `(peerCidFile, err)`. -/
def AddIPFS (env : Env) (w : World) (ipfs : IpfsLink) (message : Bytes) :
    Run (ResolvedPath × Option GoError) :=
  match ipfs.IpfsCore with
  | none => ⟨[], w, Outcome.panicked "nil pointer dereference"⟩
  | some api =>
    let added := unixfsAdd env w api message
    match added.2 with
    | Except.error err =>
      ⟨[Event.unixfsAdd ipfs.Ctx message], added.1,
        Outcome.panicked ("could not add File: " ++ err)⟩
    | Except.ok peerCidFile =>
      -- go ipfs.IpfsCore.Dht().Provide(ipfs.Ctx, peerCidFile)
      ⟨[Event.unixfsAdd ipfs.Ctx message, Event.goProvide ipfs.Ctx peerCidFile], added.1,
        Outcome.returned (peerCidFile, none)⟩

/-- Translation of `GetIPFS`.  The result is the Go pair `(f, err2)`. -/
def GetIPFS (env : Env) (w : World) (ipfs : IpfsLink) (cid_cid : Cid) :
    Run (Option FileNode × Option GoError) :=
  let cctx := Context.withDeadline ipfs.Ctx (env.now + Second * 30)
  match ipfs.IpfsCore with
  | none => ⟨[], w, Outcome.panicked "nil pointer dereference"⟩
  | some api =>
    let got := unixfsGet env w api (IpfsPathOf cid_cid)
    let f := got.1
    let err2 := got.2
    let evErr : List Event :=
      match err2 with
      | some _ =>
        [Event.printErr "could not get file with CID - %s : %s\n",
          Event.printErr
            "what we got from IPFSNODE.dag  error :  %s\n  data : %s\n====================================\n"]
      | none => []
    ⟨[Event.unixfsGet cctx (IpfsPathOf cid_cid)] ++ evErr ++
        [Event.filesWriteTo f cid_cid.String (filesWriteTo env f),
          Event.printf "Wrote file to %s\n"],
      w, Outcome.returned (f, err2)⟩

/-- The lines of a text: the pieces between line feeds. -/
def splitLines : List Char → List (List Char)
  | [] => [[]]
  | c :: cs =>
    if c = '\n' then [] :: splitLines cs
    else
      match splitLines cs with
      | [] => [[c]]
      | l :: ls => (c :: l) :: ls

/-- The lines of a string. -/
def textLines (s : String) : List String := (splitLines s.toList).map String.mk

/-- Whether a character is a base16 digit. -/
def isHexChar (c : Char) : Bool :=
  ('0' ≤ c && c ≤ '9') || ('a' ≤ c && c ≤ 'f') || ('A' ≤ c && c ≤ 'F')

/-! ## `main.go` -/

/-- Translation of `WriteFile`. -/
def WriteFile (env : Env) (fileName : String) (b : Bytes) : List Event × Outcome Unit :=
  let e1 := Event.osOpenFile fileName (O_CREATE ||| O_WRONLY) 0o755
  match env.osOpenFile fileName with
  | some err =>
    ([e1], Outcome.panicked
      ("WRITEFILE - could Not Open RootNode to update rootnodefolder\nerror: " ++ err))
  | none =>
    match env.fileWrite fileName with
    | some err =>
      ([e1, Event.fileWrite fileName b],
        Outcome.panicked ("could Not write in RootNode to WRITEFILE - \nerror: " ++ err))
    | none =>
      match env.fileClose fileName with
      | some err =>
        ([e1, Event.fileWrite fileName b, Event.fileClose fileName],
          Outcome.panicked ("could Not Close - WRITEFILE\nerror: " ++ err))
      | none =>
        ([e1, Event.fileWrite fileName b, Event.fileClose fileName], Outcome.returned ())

/-- The payload published by `bootstrap_main`. -/
def demoPayload : Bytes := bytesOf "This is the Data I push into IPFS"

/-- Translation of `bootstrap_main`. -/
def bootstrap_main (env : Env) (w : World) (swarmKey : Bool) : Run Unit :=
  let r := InitNode env w [] swarmKey
  match r.out with
  | Outcome.panicked msg => ⟨r.events, r.world, Outcome.panicked msg⟩
  | Outcome.returned (sys1, err) =>
    match err with
    | some _ => ⟨r.events, r.world, Outcome.panicked "Could not instantiate bootstrap :"⟩
    | none =>
      match sys1.IpfsNode with
      | none => ⟨r.events, r.world, Outcome.panicked "nil pointer dereference"⟩
      | some node =>
        let marshalled := env.marshalPeerInfo node
        let evMarshal : List Event :=
          Event.marshalPeerInfo node ::
            (match marshalled.2 with
              | some _ => [Event.printf "Failed To Marshall IFPS Identity & LibP2P clients : %s"]
              | none => [])
        let evStat : List Event :=
          Event.osStat "./IDBootstrapIPFS" ::
            (if env.osStatNotExist then [] else [Event.osRemove "./IDBootstrapIPFS"])
        let wr1 := WriteFile env "./IDBootstrapIPFS" marshalled.1
        let evs1 := r.events ++ evMarshal ++ evStat ++ wr1.1
        match wr1.2 with
        | Outcome.panicked msg => ⟨evs1, r.world, Outcome.panicked msg⟩
        | Outcome.returned _ =>
          let added := AddIPFS env r.world sys1 demoPayload
          match added.out with
          | Outcome.panicked msg => ⟨evs1 ++ added.events, added.world, Outcome.panicked msg⟩
          | Outcome.returned (Path, _) =>
            let b := env.marshalCid Path.Cid
            let evCid : List Event :=
              Event.marshalCid Path.Cid ::
                (match b.2 with
                  | some _ => [Event.printf "error, could not marshal cid, the error : %s"]
                  | none => [])
            let wr2 := WriteFile env "CID.txt" b.1
            ⟨evs1 ++ added.events ++ evCid ++ wr2.1, added.world, wr2.2⟩

/-- Translation of `non_bs_main`. -/
def non_bs_main (env : Env) (w : World) (IPFSBootstrap : String) (swarmKey : Bool) : Run Unit :=
  let IPFSbootstrapBytes := env.osReadFile IPFSBootstrap
  let evRead : List Event :=
    Event.osReadFile IPFSBootstrap ::
      (match IPFSbootstrapBytes.2 with
        | some _ => [Event.printf "Failed To Read IFPS bootstrap peer multiaddr : %s"]
        | none => [])
  let r := InitNode env w IPFSbootstrapBytes.1 swarmKey
  match r.out with
  | Outcome.panicked msg => ⟨evRead ++ r.events, r.world, Outcome.panicked msg⟩
  | Outcome.returned (sys1, _) =>
    let cidByte := env.osReadFile "CID.txt"
    let parsed := env.unmarshalCid cidByte.1
    let evCid : List Event :=
      [Event.osReadFile "CID.txt", Event.unmarshalCid cidByte.1] ++
        (match parsed.2 with
          | some _ => [Event.printf "Failed To Unmarshall IFPS CID : \nerror :  %s"]
          | none => []) ++
        [Event.printf "Asking the CID : %s \n"]
    let got := GetIPFS env r.world sys1 parsed.1
    match got.out with
    | Outcome.panicked msg =>
      ⟨evRead ++ r.events ++ evCid ++ got.events, got.world, Outcome.panicked msg⟩
    | Outcome.returned _ =>
      ⟨evRead ++ r.events ++ evCid ++ got.events, got.world, Outcome.returned ()⟩

/-- Translation of `main`, with the parsed flags as arguments. -/
def main (env : Env) (w : World) (mode IPFSbootstrap : String) (swarmKey : Bool) : Run Unit :=
  let evStart : List Event :=
    [Event.printf "Hello", Event.printf "Mode : %s\nBootstrapFile: %s\nSwarmKey: %d\n"]
  let r := if mode = "bootstrap" then bootstrap_main env w swarmKey
    else non_bs_main env w IPFSbootstrap swarmKey
  match r.out with
  | Outcome.panicked msg => ⟨evStart ++ r.events, r.world, Outcome.panicked msg⟩
  | Outcome.returned _ =>
    ⟨evStart ++ r.events ++ [Event.printf "Press Enter to finish demo\n", Event.stdinScan],
      r.world, Outcome.returned ()⟩

/-! ## Observations on event lists -/

/-- The bootstrap configurations installed by `node.Bootstrap`, in order. -/
def installedConfigs : List Event → List BootstrapConfig
  | [] => []
  | Event.nodeBootstrap _ cfg :: es => cfg :: installedConfigs es
  | _ :: es => installedConfigs es

/-- The peer lists written into a repository configuration, in order. -/
def repoPeerLists : List Event → List (List AddrInfo)
  | [] => []
  | Event.setBootstrapPeers peers :: es => peers :: repoPeerLists es
  | _ :: es => repoPeerLists es

/-- The plugin directories of the `setupPlugins` runs, in order. -/
def pluginSetups : List Event → List String
  | [] => []
  | Event.newPluginLoader path :: es => path :: pluginSetups es
  | _ :: es => pluginSetups es

/-- The `os.WriteFile` calls (name, data, mode), in order. -/
def fileWrites : List Event → List (String × Bytes × Nat)
  | [] => []
  | Event.osWriteFile name data perm _ :: es => (name, data, perm) :: fileWrites es
  | _ :: es => fileWrites es

/-- The repositories opened by `fsrepo.Open`, in order. -/
def repoOpens : List Event → List String
  | [] => []
  | Event.fsrepoOpen repoPath :: es => repoPath :: repoOpens es
  | _ :: es => repoOpens es

/-- The temporary directories requested from `os.MkdirTemp`, by pattern. -/
def repoCreations : List Event → List String
  | [] => []
  | Event.mkdirTemp _ pattern :: es => pattern :: repoCreations es
  | _ :: es => repoCreations es

/-- The nodes started by `core.NewNode`, by repository. -/
def nodeStarts : List Event → List String
  | [] => []
  | Event.newNode _ _ _ repoPath :: es => repoPath :: nodeStarts es
  | _ :: es => nodeStarts es

/-- The detached `Provide` tasks started, in order. -/
def provides : List Event → List (Context × ResolvedPath)
  | [] => []
  | Event.goProvide ctx path :: es => (ctx, path) :: provides es
  | _ :: es => provides es

/-- The `Unixfs().Get` calls issued (context, path), in order. -/
def gets : List Event → List (Context × ResolvedPath)
  | [] => []
  | Event.unixfsGet ctx path :: es => (ctx, path) :: gets es
  | _ :: es => gets es

/-- The `files.WriteTo` calls issued (path, handle), in order. -/
def writeAttempts : List Event → List (String × Option FileNode)
  | [] => []
  | Event.filesWriteTo nd fpath _ :: es => (fpath, nd) :: writeAttempts es
  | _ :: es => writeAttempts es

/-- What has been materialized to local storage: the `files.WriteTo` calls
that did not fail (path, bytes), in order. -/
def materialized : List Event → List (String × Bytes)
  | [] => []
  | e :: es =>
    (match e with
      | Event.filesWriteTo (some nd) fpath none => [(fpath, nd.bytes)]
      | _ => []) ++ materialized es

/-! ## Named parts of `spawnEphemeral` -/

/-- The guarded plugin setup at the head of `spawnEphemeral`: the events of
`loadPluginsOnce.Do` and the value left in `onceErr`. -/
def onceRun (env : Env) (w : World) : List Event × Option GoError :=
  if w.loadPluginsOnce then ([], none) else setupPlugins env ""

/-- The slice `m` that `spawnEphemeral` passes to `createTempRepo`. -/
def seedPeers (btstrap : Option AddrInfo) : List AddrInfo :=
  match btstrap with
  | some p => [p]
  | none => []

/-- The events of the `if swarmKey` block that writes `swarm.key`. -/
def keyWrite (env : Env) (repoPath : String) (swarmKey : Bool) : List Event :=
  if swarmKey then
    [Event.osWriteFile (repoPath ++ "/swarm.key") (bytesOf swarmKeyFileText)
      swarmKeyFileMode env.osWriteFile]
  else []

/-- The node after the `if swarmKey` block that sets `PNetFingerprint`. -/
def fingerprinted (node0 : IpfsNode) (swarmKey : Bool) : IpfsNode :=
  if swarmKey then { node0 with PNetFingerprint := some (bytesOf pnetFingerprintText) }
  else node0

/-- The process state after `loadPluginsOnce.Do`. -/
def onceDone (w : World) : World := { w with loadPluginsOnce := true }

/-- The events of `spawnEphemeral` up to and including `createNode`. -/
def eventsToNode (env : Env) (w : World) (ctx : Context) (btstrap : Option AddrInfo)
    (swarmKey : Bool) (repoPath : String) : List Event :=
  (onceRun env w).1 ++ (createTempRepo env (seedPeers btstrap)).1 ++
    [Event.printErr "repository : %s\n"] ++ keyWrite env repoPath swarmKey ++
    (createNode env ctx repoPath).1

/-- The events of `spawnEphemeral` up to and including `coreapi.NewCoreAPI`. -/
def eventsToAPI (env : Env) (w : World) (ctx : Context) (btstrap : Option AddrInfo)
    (swarmKey : Bool) (repoPath : String) (node0 : IpfsNode) : List Event :=
  eventsToNode env w ctx btstrap swarmKey repoPath ++
    [Event.nodeBootstrap (fingerprinted node0 swarmKey) (bootstrapConfigFor btstrap),
      Event.newCoreAPI (fingerprinted node0 swarmKey)]

/-! ## Sample inputs and predicates of the statements -/

/-- A seed peer address. -/
def seedAddr : AddrInfo := ⟨"QmSeed", ["/ip4/127.0.0.1/tcp/4001"]⟩

/-- An environment in which every collaborator call succeeds. -/
def okEnv : Env where
  newPluginLoader := none
  pluginsInit := none
  pluginsInject := none
  mkdirTemp := Except.ok "/tmp/ipfs-shell1"
  configInit := none
  fsrepoInit := none
  osWriteFile := none
  fsrepoOpen := none
  newNode := Except.ok ⟨"QmSeed", none⟩
  newCoreAPI := none
  swarmConnect := none
  cidOf := fun data => ⟨data⟩
  unixfsAdd := none
  provide := ProvideOutcome.success
  getFault := none
  filesWriteTo := none
  now := 1000
  osReadFile := fun _ => ([], none)
  unmarshalAddrInfo := fun _ => Except.ok seedAddr
  unmarshalCid := fun data => (⟨data⟩, none)
  marshalPeerInfo := fun _ => ([], none)
  marshalCid := fun c => (c.str, none)
  osStatNotExist := true
  osOpenFile := fun _ => none
  fileWrite := fun _ => none
  fileClose := fun _ => none

/-- The environment of a client process: as `okEnv`, with a node of its own
and a bootstrap file that holds the address of the seed. -/
def clientEnv : Env :=
  { okEnv with
    newNode := Except.ok ⟨"QmClient", none⟩
    osReadFile := fun name => if name = "CID.txt" then (demoPayload, none) else ([1], none) }

/-- A process that has not loaded its plugins, on an empty content network. -/
def freshWorld : World := ⟨false, [], []⟩

/-- All the events of a sequence of calls, in order. -/
def sequenceEvents (rs : List (Run (Option CoreAPI × Option IpfsNode × Option GoError))) :
    List Event :=
  rs.flatMap (fun r => r.events)

/-- The nodes of the program: the links that `InitNode` returns. -/
def IsNode (ipfs : IpfsLink) : Prop :=
  ∃ (env : Env) (w : World) (ipfsBootstrap : Bytes) (swarmKey : Bool) (err : Option GoError),
    (InitNode env w ipfsBootstrap swarmKey).out = Outcome.returned (ipfs, err)

/-- The link of the seed node built by `InitNode` in `okEnv`. -/
def seedLink : IpfsLink :=
  ⟨Context.withCancel Context.background, some ⟨⟨"QmSeed", none⟩⟩, some ⟨"QmSeed", none⟩⟩

/-- The identifier of the demo payload in `okEnv`. -/
def demoCid : Cid := okEnv.cidOf demoPayload

/-- The content network after the seed has published the demo payload. -/
def seededWorld : World := (AddIPFS okEnv freshWorld seedLink demoPayload).world

/-- An environment in which writes to local storage fail. -/
def diskFullEnv : Env := { okEnv with filesWriteTo := some "no space left on device" }

/-- The environment of a client process whose bootstrap file cannot be read. -/
def noFileEnv : Env :=
  { clientEnv with osReadFile := fun _ => ([], some "no such file or directory") }

/-- The environment of a client process whose bootstrap file is empty. -/
def emptyFileEnv : Env :=
  { clientEnv with osReadFile := fun _ => ([], none) }

/-- The files that `os.WriteFile` has written: the calls that did not fail
(name, data), in order. -/
def writtenFiles : List Event → List (String × Bytes)
  | [] => []
  | e :: es =>
    (match e with
      | Event.osWriteFile name data _ none => [(name, data)]
      | _ => []) ++ writtenFiles es

/-- An environment in which `os.WriteFile` fails. -/
def writeFailEnv : Env := { okEnv with osWriteFile := some "permission denied" }

/-- An environment in which `core.NewNode` returns a node that already carries
a fingerprint. -/
def fingerprintedNodeEnv : Env := { okEnv with newNode := Except.ok ⟨"QmSeed", some [1]⟩ }

theorem spawnEphemeral_pluginErr (env : Env) (w : World) (ctx : Context)
    (btstrap : Option AddrInfo) (swarmKey : Bool) (e : GoError)
    (hA : (onceRun env w).2 = some e) :
    spawnEphemeral env w ctx btstrap swarmKey =
      ⟨(onceRun env w).1, onceDone w, Outcome.returned (none, none, some e)⟩ := by
  unfold onceRun at hA
  simp only [spawnEphemeral, onceRun, onceDone, hA]

theorem spawnEphemeral_repoErr (env : Env) (w : World) (ctx : Context)
    (btstrap : Option AddrInfo) (swarmKey : Bool) (err : GoError)
    (hA : (onceRun env w).2 = none)
    (hB : (createTempRepo env (seedPeers btstrap)).2 = Except.error err) :
    spawnEphemeral env w ctx btstrap swarmKey =
      ⟨(onceRun env w).1 ++ (createTempRepo env (seedPeers btstrap)).1, onceDone w,
        Outcome.returned (none, none, some ("failed to create temp repo: " ++ err))⟩ := by
  unfold onceRun at hA
  unfold seedPeers at hB
  simp only [spawnEphemeral, onceRun, onceDone, seedPeers, hA, hB]

theorem spawnEphemeral_nodeErr (env : Env) (w : World) (ctx : Context)
    (btstrap : Option AddrInfo) (swarmKey : Bool) (repoPath : String) (err : GoError)
    (hA : (onceRun env w).2 = none)
    (hB : (createTempRepo env (seedPeers btstrap)).2 = Except.ok repoPath)
    (hC : (createNode env ctx repoPath).2 = Except.error err) :
    spawnEphemeral env w ctx btstrap swarmKey =
      ⟨eventsToNode env w ctx btstrap swarmKey repoPath, onceDone w,
        Outcome.returned (none, none, some err)⟩ := by
  unfold onceRun at hA
  unfold seedPeers at hB
  simp only [spawnEphemeral, onceRun, onceDone, seedPeers, eventsToNode, keyWrite, hA, hB, hC]

theorem spawnEphemeral_apiPanic (env : Env) (w : World) (ctx : Context)
    (p : AddrInfo) (swarmKey : Bool) (repoPath : String) (node0 : IpfsNode) (e : GoError)
    (hA : (onceRun env w).2 = none)
    (hB : (createTempRepo env (seedPeers (some p))).2 = Except.ok repoPath)
    (hC : (createNode env ctx repoPath).2 = Except.ok node0)
    (hD : env.newCoreAPI = some e) :
    spawnEphemeral env w ctx (some p) swarmKey =
      ⟨eventsToAPI env w ctx (some p) swarmKey repoPath node0, onceDone w,
        Outcome.panicked "nil pointer dereference"⟩ := by
  unfold onceRun at hA
  unfold seedPeers at hB
  simp only [spawnEphemeral, onceRun, onceDone, seedPeers, eventsToNode, eventsToAPI, keyWrite,
    fingerprinted, hA, hB, hC, hD]

theorem spawnEphemeral_withPeer (env : Env) (w : World) (ctx : Context)
    (p : AddrInfo) (swarmKey : Bool) (repoPath : String) (node0 : IpfsNode)
    (hA : (onceRun env w).2 = none)
    (hB : (createTempRepo env (seedPeers (some p))).2 = Except.ok repoPath)
    (hC : (createNode env ctx repoPath).2 = Except.ok node0)
    (hD : env.newCoreAPI = none) :
    spawnEphemeral env w ctx (some p) swarmKey =
      ⟨eventsToAPI env w ctx (some p) swarmKey repoPath node0 ++
          [Event.swarmConnect ctx p env.swarmConnect],
        (match env.swarmConnect with
          | none =>
            { onceDone w with
              links := ((fingerprinted node0 swarmKey).Identity, p.ID) :: (onceDone w).links }
          | some _ => onceDone w),
        Outcome.returned
          (some ⟨fingerprinted node0 swarmKey⟩, some (fingerprinted node0 swarmKey), none)⟩ := by
  unfold onceRun at hA
  unfold seedPeers at hB
  simp only [spawnEphemeral, onceRun, onceDone, seedPeers, eventsToNode, eventsToAPI, keyWrite,
    fingerprinted, hA, hB, hC, hD]

theorem spawnEphemeral_noPeer (env : Env) (w : World) (ctx : Context)
    (swarmKey : Bool) (repoPath : String) (node0 : IpfsNode)
    (hA : (onceRun env w).2 = none)
    (hB : (createTempRepo env (seedPeers none)).2 = Except.ok repoPath)
    (hC : (createNode env ctx repoPath).2 = Except.ok node0) :
    spawnEphemeral env w ctx none swarmKey =
      ⟨eventsToAPI env w ctx none swarmKey repoPath node0, onceDone w,
        Outcome.returned
          ((match env.newCoreAPI with
            | some _ => none
            | none => some ⟨fingerprinted node0 swarmKey⟩),
            some (fingerprinted node0 swarmKey), env.newCoreAPI)⟩ := by
  unfold onceRun at hA
  unfold seedPeers at hB
  simp only [spawnEphemeral, onceRun, onceDone, seedPeers, eventsToNode, eventsToAPI, keyWrite,
    fingerprinted, hA, hB, hC]

/-! ## Observations distribute over concatenation -/

theorem installedConfigs_append (a b : List Event) :
    installedConfigs (a ++ b) = installedConfigs a ++ installedConfigs b := by
  induction a with
  | nil => rfl
  | cons e es ih => cases e <;> simp [installedConfigs, ih]

theorem repoPeerLists_append (a b : List Event) :
    repoPeerLists (a ++ b) = repoPeerLists a ++ repoPeerLists b := by
  induction a with
  | nil => rfl
  | cons e es ih => cases e <;> simp [repoPeerLists, ih]

theorem pluginSetups_append (a b : List Event) :
    pluginSetups (a ++ b) = pluginSetups a ++ pluginSetups b := by
  induction a with
  | nil => rfl
  | cons e es ih => cases e <;> simp [pluginSetups, ih]

theorem fileWrites_append (a b : List Event) :
    fileWrites (a ++ b) = fileWrites a ++ fileWrites b := by
  induction a with
  | nil => rfl
  | cons e es ih => cases e <;> simp [fileWrites, ih]

theorem repoOpens_append (a b : List Event) :
    repoOpens (a ++ b) = repoOpens a ++ repoOpens b := by
  induction a with
  | nil => rfl
  | cons e es ih => cases e <;> simp [repoOpens, ih]

theorem repoCreations_append (a b : List Event) :
    repoCreations (a ++ b) = repoCreations a ++ repoCreations b := by
  induction a with
  | nil => rfl
  | cons e es ih => cases e <;> simp [repoCreations, ih]

theorem nodeStarts_append (a b : List Event) :
    nodeStarts (a ++ b) = nodeStarts a ++ nodeStarts b := by
  induction a with
  | nil => rfl
  | cons e es ih => cases e <;> simp [nodeStarts, ih]

/-! ## What the parts of `spawnEphemeral` emit -/

theorem installedConfigs_setupPlugins (env : Env) (path : String) :
    installedConfigs (setupPlugins env path).1 = [] := by
  unfold setupPlugins
  repeat' split
  all_goals rfl

theorem repoPeerLists_setupPlugins (env : Env) (path : String) :
    repoPeerLists (setupPlugins env path).1 = [] := by
  unfold setupPlugins
  repeat' split
  all_goals rfl

theorem fileWrites_setupPlugins (env : Env) (path : String) :
    fileWrites (setupPlugins env path).1 = [] := by
  unfold setupPlugins
  repeat' split
  all_goals rfl

theorem repoOpens_setupPlugins (env : Env) (path : String) :
    repoOpens (setupPlugins env path).1 = [] := by
  unfold setupPlugins
  repeat' split
  all_goals rfl

theorem installedConfigs_createTempRepo (env : Env) (m : List AddrInfo) :
    installedConfigs (createTempRepo env m).1 = [] := by
  unfold createTempRepo
  repeat' split
  all_goals rfl

theorem pluginSetups_createTempRepo (env : Env) (m : List AddrInfo) :
    pluginSetups (createTempRepo env m).1 = [] := by
  unfold createTempRepo
  repeat' split
  all_goals rfl

theorem fileWrites_createTempRepo (env : Env) (m : List AddrInfo) :
    fileWrites (createTempRepo env m).1 = [] := by
  unfold createTempRepo
  repeat' split
  all_goals rfl

theorem repoOpens_createTempRepo (env : Env) (m : List AddrInfo) :
    repoOpens (createTempRepo env m).1 = [] := by
  unfold createTempRepo
  repeat' split
  all_goals rfl

theorem nodeStarts_createTempRepo (env : Env) (m : List AddrInfo) :
    nodeStarts (createTempRepo env m).1 = [] := by
  unfold createTempRepo
  repeat' split
  all_goals rfl

theorem installedConfigs_createNode (env : Env) (ctx : Context) (repoPath : String) :
    installedConfigs (createNode env ctx repoPath).1 = [] := by
  unfold createNode
  repeat' split
  all_goals rfl

theorem repoPeerLists_createNode (env : Env) (ctx : Context) (repoPath : String) :
    repoPeerLists (createNode env ctx repoPath).1 = [] := by
  unfold createNode
  repeat' split
  all_goals rfl

theorem pluginSetups_createNode (env : Env) (ctx : Context) (repoPath : String) :
    pluginSetups (createNode env ctx repoPath).1 = [] := by
  unfold createNode
  repeat' split
  all_goals rfl

theorem fileWrites_createNode (env : Env) (ctx : Context) (repoPath : String) :
    fileWrites (createNode env ctx repoPath).1 = [] := by
  unfold createNode
  repeat' split
  all_goals rfl

theorem repoCreations_createNode (env : Env) (ctx : Context) (repoPath : String) :
    repoCreations (createNode env ctx repoPath).1 = [] := by
  unfold createNode
  repeat' split
  all_goals rfl

theorem pluginSetups_setupPlugins (env : Env) (path : String) :
    pluginSetups (setupPlugins env path).1 = [filepathJoin path "plugins"] := by
  unfold setupPlugins
  repeat' split
  all_goals rfl

theorem repoCreations_createTempRepo (env : Env) (m : List AddrInfo) :
    repoCreations (createTempRepo env m).1 = ["ipfs-shell"] := by
  unfold createTempRepo
  repeat' split
  all_goals rfl

theorem repoPeerLists_createTempRepo (env : Env) (m : List AddrInfo) (repoPath : String)
    (h : (createTempRepo env m).2 = Except.ok repoPath) :
    repoPeerLists (createTempRepo env m).1 = [m] := by
  unfold createTempRepo at h ⊢
  repeat' split at h
  all_goals simp_all [repoPeerLists]

theorem createNode_events (env : Env) (ctx : Context) (repoPath : String) :
    ∃ tail, (createNode env ctx repoPath).1 = Event.fsrepoOpen repoPath :: tail ∧
      repoOpens tail = [] ∧ fileWrites tail = [] := by
  unfold createNode
  repeat' split
  all_goals exact ⟨_, rfl, rfl, rfl⟩

theorem repoOpens_createNode (env : Env) (ctx : Context) (repoPath : String) :
    repoOpens (createNode env ctx repoPath).1 = [repoPath] := by
  obtain ⟨tail, h1, h2, _⟩ := createNode_events env ctx repoPath
  rw [h1]
  simp [repoOpens, h2]

theorem nodeStarts_createNode (env : Env) (ctx : Context) (repoPath : String) (node : IpfsNode)
    (h : (createNode env ctx repoPath).2 = Except.ok node) :
    nodeStarts (createNode env ctx repoPath).1 = [repoPath] := by
  unfold createNode at h ⊢
  repeat' split at h
  all_goals simp_all [nodeStarts]

theorem installedConfigs_onceRun (env : Env) (w : World) :
    installedConfigs (onceRun env w).1 = [] := by
  unfold onceRun
  split
  · rfl
  · exact installedConfigs_setupPlugins env ""

theorem repoPeerLists_onceRun (env : Env) (w : World) :
    repoPeerLists (onceRun env w).1 = [] := by
  unfold onceRun
  split
  · rfl
  · exact repoPeerLists_setupPlugins env ""

theorem fileWrites_onceRun (env : Env) (w : World) :
    fileWrites (onceRun env w).1 = [] := by
  unfold onceRun
  split
  · rfl
  · exact fileWrites_setupPlugins env ""

theorem repoOpens_onceRun (env : Env) (w : World) :
    repoOpens (onceRun env w).1 = [] := by
  unfold onceRun
  split
  · rfl
  · exact repoOpens_setupPlugins env ""

theorem pluginSetups_onceRun (env : Env) (w : World) :
    pluginSetups (onceRun env w).1 = if w.loadPluginsOnce then [] else ["plugins"] := by
  unfold onceRun
  split
  · rfl
  · exact pluginSetups_setupPlugins env ""

/-- Every call of `spawnEphemeral` leaves by one of six exits. -/
theorem spawnEphemeral_exits (env : Env) (w : World) (ctx : Context)
    (btstrap : Option AddrInfo) (swarmKey : Bool) :
    (∃ e, (onceRun env w).2 = some e ∧
      spawnEphemeral env w ctx btstrap swarmKey =
        ⟨(onceRun env w).1, onceDone w, Outcome.returned (none, none, some e)⟩) ∨
    (∃ err, (onceRun env w).2 = none ∧
      (createTempRepo env (seedPeers btstrap)).2 = Except.error err ∧
      spawnEphemeral env w ctx btstrap swarmKey =
        ⟨(onceRun env w).1 ++ (createTempRepo env (seedPeers btstrap)).1, onceDone w,
          Outcome.returned (none, none, some ("failed to create temp repo: " ++ err))⟩) ∨
    (∃ repoPath err, (onceRun env w).2 = none ∧
      (createTempRepo env (seedPeers btstrap)).2 = Except.ok repoPath ∧
      (createNode env ctx repoPath).2 = Except.error err ∧
      spawnEphemeral env w ctx btstrap swarmKey =
        ⟨eventsToNode env w ctx btstrap swarmKey repoPath, onceDone w,
          Outcome.returned (none, none, some err)⟩) ∨
    (∃ repoPath node0 p e, btstrap = some p ∧ (onceRun env w).2 = none ∧
      (createTempRepo env (seedPeers btstrap)).2 = Except.ok repoPath ∧
      (createNode env ctx repoPath).2 = Except.ok node0 ∧ env.newCoreAPI = some e ∧
      spawnEphemeral env w ctx btstrap swarmKey =
        ⟨eventsToAPI env w ctx btstrap swarmKey repoPath node0, onceDone w,
          Outcome.panicked "nil pointer dereference"⟩) ∨
    (∃ repoPath node0 p, btstrap = some p ∧ (onceRun env w).2 = none ∧
      (createTempRepo env (seedPeers btstrap)).2 = Except.ok repoPath ∧
      (createNode env ctx repoPath).2 = Except.ok node0 ∧ env.newCoreAPI = none ∧
      spawnEphemeral env w ctx btstrap swarmKey =
        ⟨eventsToAPI env w ctx btstrap swarmKey repoPath node0 ++
            [Event.swarmConnect ctx p env.swarmConnect],
          (match env.swarmConnect with
            | none =>
              { onceDone w with
                links := ((fingerprinted node0 swarmKey).Identity, p.ID) :: (onceDone w).links }
            | some _ => onceDone w),
          Outcome.returned
            (some ⟨fingerprinted node0 swarmKey⟩, some (fingerprinted node0 swarmKey), none)⟩) ∨
    (∃ repoPath node0, btstrap = none ∧ (onceRun env w).2 = none ∧
      (createTempRepo env (seedPeers btstrap)).2 = Except.ok repoPath ∧
      (createNode env ctx repoPath).2 = Except.ok node0 ∧
      spawnEphemeral env w ctx btstrap swarmKey =
        ⟨eventsToAPI env w ctx btstrap swarmKey repoPath node0, onceDone w,
          Outcome.returned
            ((match env.newCoreAPI with
              | some _ => none
              | none => some ⟨fingerprinted node0 swarmKey⟩),
              some (fingerprinted node0 swarmKey), env.newCoreAPI)⟩) := by
  rcases hA : (onceRun env w).2 with _ | e
  · rcases hB : (createTempRepo env (seedPeers btstrap)).2 with err | repoPath
    · exact Or.inr (Or.inl ⟨err, rfl, rfl, spawnEphemeral_repoErr env w ctx btstrap swarmKey err hA hB⟩)
    · rcases hC : (createNode env ctx repoPath).2 with err | node0
      · exact Or.inr (Or.inr (Or.inl ⟨repoPath, err, rfl, rfl, hC,
          spawnEphemeral_nodeErr env w ctx btstrap swarmKey repoPath err hA hB hC⟩))
      · cases btstrap with
        | none =>
          exact Or.inr (Or.inr (Or.inr (Or.inr (Or.inr ⟨repoPath, node0, rfl, rfl, rfl, hC,
            spawnEphemeral_noPeer env w ctx swarmKey repoPath node0 hA hB hC⟩))))
        | some p =>
          rcases hD : env.newCoreAPI with _ | e
          · exact Or.inr (Or.inr (Or.inr (Or.inr (Or.inl ⟨repoPath, node0, p, rfl, rfl, rfl,
              hC, rfl, spawnEphemeral_withPeer env w ctx p swarmKey repoPath node0 hA hB hC hD⟩))))
          · exact Or.inr (Or.inr (Or.inr (Or.inl ⟨repoPath, node0, p, e, rfl, rfl, rfl,
              hC, rfl, spawnEphemeral_apiPanic env w ctx p swarmKey repoPath node0 e hA hB hC hD⟩)))
  · exact Or.inl ⟨e, rfl, spawnEphemeral_pluginErr env w ctx btstrap swarmKey e hA⟩

theorem installedConfigs_keyWrite (env : Env) (repoPath : String) (swarmKey : Bool) :
    installedConfigs (keyWrite env repoPath swarmKey) = [] := by
  unfold keyWrite
  split <;> rfl

theorem repoPeerLists_keyWrite (env : Env) (repoPath : String) (swarmKey : Bool) :
    repoPeerLists (keyWrite env repoPath swarmKey) = [] := by
  unfold keyWrite
  split <;> rfl

theorem pluginSetups_keyWrite (env : Env) (repoPath : String) (swarmKey : Bool) :
    pluginSetups (keyWrite env repoPath swarmKey) = [] := by
  unfold keyWrite
  split <;> rfl

theorem repoOpens_keyWrite (env : Env) (repoPath : String) (swarmKey : Bool) :
    repoOpens (keyWrite env repoPath swarmKey) = [] := by
  unfold keyWrite
  split <;> rfl

theorem repoCreations_keyWrite (env : Env) (repoPath : String) (swarmKey : Bool) :
    repoCreations (keyWrite env repoPath swarmKey) = [] := by
  unfold keyWrite
  split <;> rfl

theorem nodeStarts_keyWrite (env : Env) (repoPath : String) (swarmKey : Bool) :
    nodeStarts (keyWrite env repoPath swarmKey) = [] := by
  unfold keyWrite
  split <;> rfl

/-! ## Bootstrap configuration (C4) -/

/-- A run of `spawnEphemeral` installs no bootstrap configuration, or exactly
the one built from the optional peer, after `createTempRepo` has written the
list of that peer into the repository configuration. -/
theorem installedConfigs_spawnEphemeral (env : Env) (w : World) (ctx : Context)
    (btstrap : Option AddrInfo) (swarmKey : Bool) :
    installedConfigs (spawnEphemeral env w ctx btstrap swarmKey).events = [] ∨
    (installedConfigs (spawnEphemeral env w ctx btstrap swarmKey).events =
        [bootstrapConfigFor btstrap] ∧
      repoPeerLists (spawnEphemeral env w ctx btstrap swarmKey).events = [seedPeers btstrap]) := by
  rcases spawnEphemeral_exits env w ctx btstrap swarmKey with
    ⟨e, _, hs⟩ | ⟨err, _, _, hs⟩ | ⟨repoPath, err, _, _, _, hs⟩ |
    ⟨repoPath, node0, p, e, _, _, hB, _, _, hs⟩ | ⟨repoPath, node0, p, _, _, hB, _, _, hs⟩ |
    ⟨repoPath, node0, _, _, hB, _, hs⟩
  · left
    rw [hs]
    simp [installedConfigs_onceRun]
  · left
    rw [hs]
    simp [installedConfigs_append, installedConfigs_onceRun, installedConfigs_createTempRepo]
  · left
    rw [hs]
    simp [eventsToNode, installedConfigs_append, installedConfigs_onceRun,
      installedConfigs_createTempRepo, installedConfigs_createNode, installedConfigs_keyWrite,
      installedConfigs]
  all_goals
    right
    rw [hs]
    simp [eventsToAPI, eventsToNode, installedConfigs_append, installedConfigs_onceRun,
      installedConfigs_createTempRepo, installedConfigs_createNode, installedConfigs_keyWrite,
      installedConfigs, repoPeerLists_append, repoPeerLists_onceRun,
      repoPeerLists_createTempRepo _ _ _ hB, repoPeerLists_createNode, repoPeerLists_keyWrite,
      repoPeerLists]

theorem fileWrites_keyWrite (env : Env) (repoPath : String) (swarmKey : Bool) :
    fileWrites (keyWrite env repoPath swarmKey) =
      if swarmKey then [(repoPath ++ "/swarm.key", bytesOf swarmKeyFileText, swarmKeyFileMode)]
      else [] := by
  unfold keyWrite
  split <;> rfl

theorem createNode_ok (env : Env) (ctx : Context) (repoPath : String) (node : IpfsNode)
    (h : (createNode env ctx repoPath).2 = Except.ok node) : env.newNode = Except.ok node := by
  unfold createNode at h
  repeat' split at h
  all_goals simp_all

theorem eventsToNode_private (env : Env) (w : World) (ctx : Context)
    (btstrap : Option AddrInfo) (repoPath : String) :
    ∃ pre tail, eventsToNode env w ctx btstrap true repoPath =
        pre ++ Event.osWriteFile (repoPath ++ "/swarm.key") (bytesOf swarmKeyFileText)
          swarmKeyFileMode env.osWriteFile :: Event.fsrepoOpen repoPath :: tail ∧
      repoOpens pre = [] ∧ fileWrites pre = [] ∧ repoOpens tail = [] ∧ fileWrites tail = [] := by
  obtain ⟨tail, h1, h2, h3⟩ := createNode_events env ctx repoPath
  refine ⟨(onceRun env w).1 ++ (createTempRepo env (seedPeers btstrap)).1 ++
    [Event.printErr "repository : %s\n"], tail, ?_, ?_, ?_, h2, h3⟩
  · simp [eventsToNode, keyWrite, h1]
  · simp [repoOpens_append, repoOpens_onceRun, repoOpens_createTempRepo, repoOpens]
  · simp [fileWrites_append, fileWrites_onceRun, fileWrites_createTempRepo, fileWrites]

theorem repoOpens_eventsToNode (env : Env) (w : World) (ctx : Context)
    (btstrap : Option AddrInfo) (swarmKey : Bool) (repoPath : String) :
    repoOpens (eventsToNode env w ctx btstrap swarmKey repoPath) = [repoPath] := by
  simp [eventsToNode, repoOpens_append, repoOpens_onceRun, repoOpens_createTempRepo,
    repoOpens_createNode, repoOpens_keyWrite, repoOpens]

theorem fileWrites_eventsToNode (env : Env) (w : World) (ctx : Context)
    (btstrap : Option AddrInfo) (swarmKey : Bool) (repoPath : String) :
    fileWrites (eventsToNode env w ctx btstrap swarmKey repoPath) =
      if swarmKey then [(repoPath ++ "/swarm.key", bytesOf swarmKeyFileText, swarmKeyFileMode)]
      else [] := by
  simp [eventsToNode, fileWrites_append, fileWrites_onceRun, fileWrites_createTempRepo,
    fileWrites_createNode, fileWrites_keyWrite, fileWrites]

/-- The `os.WriteFile` calls of a run of `spawnEphemeral`: the write of
`swarm.key` when private-network mode is requested and the repository was
created, none otherwise. -/
theorem fileWrites_spawnEphemeral (env : Env) (w : World) (ctx : Context)
    (btstrap : Option AddrInfo) (swarmKey : Bool) :
    fileWrites (spawnEphemeral env w ctx btstrap swarmKey).events = [] ∨
    ∃ repoPath, swarmKey = true ∧
      fileWrites (spawnEphemeral env w ctx btstrap swarmKey).events =
        [(repoPath ++ "/swarm.key", bytesOf swarmKeyFileText, swarmKeyFileMode)] := by
  rcases spawnEphemeral_exits env w ctx btstrap swarmKey with
    ⟨e, _, hs⟩ | ⟨e, _, _, hs⟩ | ⟨repoPath, e, _, _, _, hs⟩ |
    ⟨repoPath, node0, p, e, hp, _, _, _, _, hs⟩ |
    ⟨repoPath, node0, p, hp, _, _, _, _, hs⟩ | ⟨repoPath, node0, hp, _, _, _, hs⟩
  · rw [hs]
    simp [fileWrites_onceRun]
  · rw [hs]
    simp [fileWrites_append, fileWrites_onceRun, fileWrites_createTempRepo]
  all_goals
    rw [hs]
    cases swarmKey
    · left
      simp [eventsToAPI, fileWrites_append, fileWrites_eventsToNode, fileWrites]
    · right
      exact ⟨repoPath, rfl, by
        simp [eventsToAPI, fileWrites_append, fileWrites_eventsToNode, fileWrites]⟩

theorem writtenFiles_append (a b : List Event) :
    writtenFiles (a ++ b) = writtenFiles a ++ writtenFiles b := by
  induction a with
  | nil => rfl
  | cons e es ih => simp [writtenFiles, ih]

theorem writtenFiles_of_no_write (l : List Event) (h : fileWrites l = []) :
    writtenFiles l = [] := by
  induction l with
  | nil => rfl
  | cons e es ih =>
    cases e
    all_goals simp [fileWrites] at h
    all_goals simp [writtenFiles, ih h]

theorem spawnEphemeral_out_write (env : Env) (w : World) (ctx : Context)
    (btstrap : Option AddrInfo) (swarmKey : Bool) (res : Option GoError) :
    (spawnEphemeral { env with osWriteFile := res } w ctx btstrap swarmKey).out =
      (spawnEphemeral env w ctx btstrap swarmKey).out := by
  rcases spawnEphemeral_exits env w ctx btstrap swarmKey with
    ⟨e, hA, hs⟩ | ⟨err, hA, hB, hs⟩ | ⟨repoPath, err, hA, hB, hC, hs⟩ |
    ⟨repoPath, node0, p, e, hp, hA, hB, hC, hD, hs⟩ |
    ⟨repoPath, node0, p, hp, hA, hB, hC, hD, hs⟩ | ⟨repoPath, node0, hp, hA, hB, hC, hs⟩
  · rw [hs, spawnEphemeral_pluginErr { env with osWriteFile := res } w ctx btstrap swarmKey e hA]
  · rw [hs, spawnEphemeral_repoErr { env with osWriteFile := res } w ctx btstrap swarmKey err
      hA hB]
  · rw [hs, spawnEphemeral_nodeErr { env with osWriteFile := res } w ctx btstrap swarmKey
      repoPath err hA hB hC]
  · subst hp
    rw [hs, spawnEphemeral_apiPanic { env with osWriteFile := res } w ctx p swarmKey
      repoPath node0 e hA hB hC hD]
  · subst hp
    rw [hs, spawnEphemeral_withPeer { env with osWriteFile := res } w ctx p swarmKey
      repoPath node0 hA hB hC hD]
  · subst hp
    rw [hs, spawnEphemeral_noPeer { env with osWriteFile := res } w ctx swarmKey
      repoPath node0 hA hB hC]

/-- C8 fails as stated.  With private-network mode requested and a failing
`os.WriteFile`, the repository is opened and a node is returned with its
fingerprint although no file has been written; with the mode not requested, a
node that `core.NewNode` returns with a fingerprint keeps it. -/
theorem spawnEphemeral_fingerprint_not_written :
    repoOpens (spawnEphemeral writeFailEnv freshWorld Context.background none true).events =
      ["/tmp/ipfs-shell1"] ∧
    writtenFiles (spawnEphemeral writeFailEnv freshWorld Context.background none true).events =
      [] ∧
    (spawnEphemeral writeFailEnv freshWorld Context.background none true).out =
      Outcome.returned (some ⟨⟨"QmSeed", some (bytesOf pnetFingerprintText)⟩⟩,
        some ⟨"QmSeed", some (bytesOf pnetFingerprintText)⟩, none) ∧
    (spawnEphemeral fingerprintedNodeEnv freshWorld Context.background none false).out =
      Outcome.returned (some ⟨⟨"QmSeed", some [1]⟩⟩, some ⟨"QmSeed", some [1]⟩, none) :=
  ⟨rfl, rfl, rfl, rfl⟩

/-- C8 as amended: with private-network mode requested, in every call of
`spawnEphemeral` that opens the repository, one write of
`<repoPath>/swarm.key` is issued, right before `fsrepo.Open`; it is the only
write and the only open of the call, and its result is discarded: the values
returned are the same whatever it is.  The text passed is exactly three lines
(the tag `/key/swarm/psk/1.0.0/`, the tag `/base16/`, and 64 base16 digits,
that is 32 bytes), and whenever the write did not fail the file has been
written with that text before the repository is opened.  A node that is
returned carries a non-empty `PNetFingerprint`.  With the mode not requested
no write is issued and `spawnEphemeral` does not assign `PNetFingerprint`: the
node is returned as `core.NewNode` built it. -/
theorem spawnEphemeral_fingerprint_file (env : Env) (w : World) (ctx : Context)
    (btstrap : Option AddrInfo) (repoPath : String)
    (hopen : repoPath ∈ repoOpens (spawnEphemeral env w ctx btstrap true).events) :
    (∃ pre post, (spawnEphemeral env w ctx btstrap true).events =
        pre ++ Event.osWriteFile (repoPath ++ "/swarm.key") (bytesOf swarmKeyFileText)
          swarmKeyFileMode env.osWriteFile :: Event.fsrepoOpen repoPath :: post ∧
      repoOpens pre = [] ∧ fileWrites pre = [] ∧ repoOpens post = [] ∧ fileWrites post = [] ∧
      (env.osWriteFile = none →
        writtenFiles (pre ++ [Event.osWriteFile (repoPath ++ "/swarm.key")
          (bytesOf swarmKeyFileText) swarmKeyFileMode env.osWriteFile]) =
            [(repoPath ++ "/swarm.key", bytesOf swarmKeyFileText)])) ∧
    (∀ res : Option GoError,
      (spawnEphemeral { env with osWriteFile := res } w ctx btstrap true).out =
        (spawnEphemeral env w ctx btstrap true).out) ∧
    (∃ key : String, textLines swarmKeyFileText = ["/key/swarm/psk/1.0.0/", "/base16/", key] ∧
      key.length = 64 ∧ key.length = 2 * 32 ∧ key.toList.all isHexChar = true) ∧
    (∀ api node err, (spawnEphemeral env w ctx btstrap true).out =
        Outcome.returned (api, some node, err) →
      ∃ fp, node.PNetFingerprint = some fp ∧ fp ≠ []) ∧
    fileWrites (spawnEphemeral env w ctx btstrap false).events = [] ∧
    (∀ api node err, (spawnEphemeral env w ctx btstrap false).out =
        Outcome.returned (api, some node, err) → env.newNode = Except.ok node) := by
  have hshape : ∃ pre post, (spawnEphemeral env w ctx btstrap true).events =
        pre ++ Event.osWriteFile (repoPath ++ "/swarm.key") (bytesOf swarmKeyFileText)
          swarmKeyFileMode env.osWriteFile :: Event.fsrepoOpen repoPath :: post ∧
      repoOpens pre = [] ∧ fileWrites pre = [] ∧ repoOpens post = [] ∧ fileWrites post = [] := by
    rcases spawnEphemeral_exits env w ctx btstrap true with
      ⟨e, _, hs⟩ | ⟨e, _, _, hs⟩ | ⟨rp, e, _, _, _, hs⟩ |
      ⟨rp, node0, p, e, hp, _, _, _, _, hs⟩ |
      ⟨rp, node0, p, hp, _, _, _, _, hs⟩ | ⟨rp, node0, hp, _, _, _, hs⟩
    · rw [hs] at hopen
      simp [repoOpens_onceRun] at hopen
    · rw [hs] at hopen
      simp [repoOpens_append, repoOpens_onceRun, repoOpens_createTempRepo] at hopen
    · rw [hs] at hopen ⊢
      simp [repoOpens_eventsToNode] at hopen
      subst hopen
      obtain ⟨pre, tail, h1, h2, h3, h4, h5⟩ := eventsToNode_private env w ctx btstrap repoPath
      exact ⟨pre, tail, h1, h2, h3, h4, h5⟩
    all_goals
      rw [hs] at hopen ⊢
      simp [eventsToAPI, repoOpens_append, repoOpens_eventsToNode, repoOpens] at hopen
      subst hopen
      obtain ⟨pre, tail, h1, h2, h3, h4, h5⟩ := eventsToNode_private env w ctx btstrap repoPath
      refine ⟨pre, tail ++ _, by
        simp only [eventsToAPI, h1, List.append_assoc, List.cons_append]
        rfl, h2, h3, ?_, ?_⟩
      · simp [repoOpens_append, h4, repoOpens]
      · simp [fileWrites_append, h5, fileWrites]
  refine ⟨?_, fun res => spawnEphemeral_out_write env w ctx btstrap true res,
    ⟨"edd99a84bbdd5c9cfc06bcc039d219b1000885ecba26901c02e7c8792bfaaa70",
      by decide, by decide, by decide, by decide⟩, ?_, ?_, ?_⟩
  · obtain ⟨pre, post, h1, h2, h3, h4, h5⟩ := hshape
    refine ⟨pre, post, h1, h2, h3, h4, h5, fun hw => ?_⟩
    rw [writtenFiles_append, writtenFiles_of_no_write pre h3, hw]
    rfl
  · intro api node err h
    have hfp : bytesOf pnetFingerprintText ≠ [] := by decide
    rcases spawnEphemeral_exits env w ctx btstrap true with
      ⟨e, _, hs⟩ | ⟨e, _, _, hs⟩ | ⟨rp, e, _, _, _, hs⟩ |
      ⟨rp, node0, p, e, hp, _, _, _, _, hs⟩ |
      ⟨rp, node0, p, hp, _, _, _, _, hs⟩ | ⟨rp, node0, hp, _, _, _, hs⟩
    all_goals rw [hs] at h
    all_goals simp [fingerprinted] at h
    · exact ⟨_, by rw [← h.2.1], hfp⟩
    · exact ⟨_, by rw [← h.2.1], hfp⟩
  · rcases fileWrites_spawnEphemeral env w ctx btstrap false with h | ⟨_, h, _⟩
    · exact h
    · cases h
  · intro api node err h
    rcases spawnEphemeral_exits env w ctx btstrap false with
      ⟨e, _, hs⟩ | ⟨e, _, _, hs⟩ | ⟨rp, e, _, _, _, hs⟩ |
      ⟨rp, node0, p, e, hp, _, _, _, _, hs⟩ |
      ⟨rp, node0, p, hp, _, _, hC, _, hs⟩ | ⟨rp, node0, hp, _, _, hC, hs⟩
    all_goals rw [hs] at h
    all_goals simp [fingerprinted] at h
    · rw [← h.2.1]
      exact createNode_ok env ctx rp node0 hC
    · rw [← h.2.1]
      exact createNode_ok env ctx rp node0 hC

/-- C8 as amended, at a concrete call: a private seed node spawned in `okEnv`,
where the write succeeds. -/
theorem spawnEphemeral_fingerprint_file_witness :
    (∃ pre post, (spawnEphemeral okEnv freshWorld Context.background none true).events =
        pre ++ Event.osWriteFile "/tmp/ipfs-shell1/swarm.key" (bytesOf swarmKeyFileText)
          0o2101 none :: Event.fsrepoOpen "/tmp/ipfs-shell1" :: post ∧
      repoOpens pre = [] ∧ fileWrites pre = [] ∧ repoOpens post = [] ∧ fileWrites post = [] ∧
      ((none : Option GoError) = none →
        writtenFiles (pre ++ [Event.osWriteFile "/tmp/ipfs-shell1/swarm.key"
          (bytesOf swarmKeyFileText) 0o2101 none]) =
            [("/tmp/ipfs-shell1/swarm.key", bytesOf swarmKeyFileText)])) ∧
    fileWrites (spawnEphemeral okEnv freshWorld Context.background none false).events = [] :=
  have h := spawnEphemeral_fingerprint_file okEnv freshWorld Context.background none
    "/tmp/ipfs-shell1" (List.mem_singleton.2 rfl)
  ⟨h.1, h.2.2.2.2.1⟩

/-- C10: the mode that `spawnEphemeral` passes when it writes `swarm.key` is
the bitwise OR of the open flags `O_CREATE`, `O_WRONLY` and `O_APPEND`, that
is `0o2101`; its nine permission bits are `0o101`, with the owner-read bit
`0o400` and the owner-write bit `0o200` both clear. -/
theorem spawnEphemeral_swarm_key_mode (env : Env) (w : World) (ctx : Context)
    (btstrap : Option AddrInfo) (swarmKey : Bool) (name : String) (data : Bytes) (perm : Nat)
    (h : (name, data, perm) ∈ fileWrites (spawnEphemeral env w ctx btstrap swarmKey).events) :
    perm = O_CREATE ||| O_WRONLY ||| O_APPEND ∧
    perm = 0o100 ||| 0o1 ||| 0o2000 ∧
    perm = 0o2101 ∧
    FileModePerm perm = 0o101 ∧
    perm &&& 0o400 = 0 ∧
    perm &&& 0o200 = 0 := by
  have hperm : perm = swarmKeyFileMode := by
    rcases fileWrites_spawnEphemeral env w ctx btstrap swarmKey with h0 | ⟨repoPath, _, h1⟩
    · rw [h0] at h
      cases h
    · rw [h1] at h
      simp at h
      exact h.2.2
  subst hperm
  decide

/-- C10 at a concrete call: a private seed node spawned in `okEnv`. -/
theorem spawnEphemeral_swarm_key_mode_witness :
    fileWrites (spawnEphemeral okEnv freshWorld Context.background none true).events =
      [("/tmp/ipfs-shell1/swarm.key", bytesOf swarmKeyFileText, 0o2101)] ∧
    FileModePerm 0o2101 = 0o101 ∧ 0o2101 &&& 0o400 = 0 ∧ 0o2101 &&& 0o200 = 0 :=
  have h := spawnEphemeral_swarm_key_mode okEnv freshWorld Context.background none true
    "/tmp/ipfs-shell1/swarm.key" (bytesOf swarmKeyFileText) 0o2101 (List.mem_singleton.2 rfl)
  ⟨rfl, h.2.2.2.1, h.2.2.2.2⟩

/-! ## One-time plugin loading (C6) -/

theorem spawnEphemeral_world_once (env : Env) (w : World) (ctx : Context)
    (btstrap : Option AddrInfo) (swarmKey : Bool) :
    (spawnEphemeral env w ctx btstrap swarmKey).world.loadPluginsOnce = true := by
  rcases spawnEphemeral_exits env w ctx btstrap swarmKey with
    ⟨e, _, hs⟩ | ⟨e, _, _, hs⟩ | ⟨rp, e, _, _, _, hs⟩ |
    ⟨rp, node0, p, e, hp, _, _, _, _, hs⟩ |
    ⟨rp, node0, p, hp, _, _, _, _, hs⟩ | ⟨rp, node0, hp, _, _, _, hs⟩
  all_goals rw [hs]
  all_goals simp only [onceDone]
  split <;> rfl

theorem pluginSetups_spawnEphemeral (env : Env) (w : World) (ctx : Context)
    (btstrap : Option AddrInfo) (swarmKey : Bool) :
    pluginSetups (spawnEphemeral env w ctx btstrap swarmKey).events =
      if w.loadPluginsOnce then [] else ["plugins"] := by
  rcases spawnEphemeral_exits env w ctx btstrap swarmKey with
    ⟨e, _, hs⟩ | ⟨e, _, _, hs⟩ | ⟨rp, e, _, _, _, hs⟩ |
    ⟨rp, node0, p, e, hp, _, _, _, _, hs⟩ |
    ⟨rp, node0, p, hp, _, _, _, _, hs⟩ | ⟨rp, node0, hp, _, _, _, hs⟩
  all_goals rw [hs]
  all_goals simp [eventsToAPI, eventsToNode, pluginSetups_append, pluginSetups_onceRun,
    pluginSetups_createTempRepo, pluginSetups_createNode, pluginSetups_keyWrite, pluginSetups]

/-- Plugin setup runs once over a sequence of calls of one process: in a
process that has not loaded its plugins, any non-empty sequence of
`spawnEphemeral` calls runs `setupPlugins` exactly once, and a process that
has loaded them never runs it again. -/
theorem spawnSequence_plugin_setup_once (w : World) (calls : List SpawnCall) :
    pluginSetups (sequenceEvents (spawnSequence w calls)) =
      if w.loadPluginsOnce || calls.isEmpty then [] else ["plugins"] := by
  induction calls generalizing w with
  | nil => simp [spawnSequence, sequenceEvents, pluginSetups]
  | cons c cs ih =>
    have ih1 := ih (spawnEphemeral c.env w c.ctx c.btstrap c.swarmKey).world
    rw [spawnEphemeral_world_once] at ih1
    simp only [sequenceEvents] at ih1 ⊢
    simp only [spawnSequence, List.flatMap_cons, pluginSetups_append,
      pluginSetups_spawnEphemeral]
    rw [ih1]
    cases w.loadPluginsOnce <;> simp

theorem spawnEphemeral_returned_nil (env : Env) (w : World) (ctx : Context)
    (btstrap : Option AddrInfo) (swarmKey : Bool)
    (api : Option CoreAPI) (node : Option IpfsNode)
    (h : (spawnEphemeral env w ctx btstrap swarmKey).out = Outcome.returned (api, node, none)) :
    ∃ nd, api = some ⟨nd⟩ ∧ node = some nd := by
  rcases spawnEphemeral_exits env w ctx btstrap swarmKey with
    ⟨e, _, hs⟩ | ⟨e, _, _, hs⟩ | ⟨rp, e, _, _, _, hs⟩ |
    ⟨rp, node0, p, e, hp, _, _, _, _, hs⟩ |
    ⟨rp, node0, p, hp, _, _, _, _, hs⟩ | ⟨rp, node0, hp, _, _, _, hs⟩
  all_goals rw [hs] at h
  all_goals simp at h
  · exact ⟨_, h.1.symm, h.2.symm⟩
  · obtain ⟨h1, h2, h3⟩ := h
    rw [h3] at h1
    exact ⟨_, h1.symm, h2.symm⟩

/-- What `InitNode` returns: a nil error, and a link whose context is a
cancellable child of the background context and whose core API is built over
its node. -/
theorem InitNode_returned (env : Env) (w : World) (ipfsBootstrap : Bytes) (swarmKey : Bool)
    (ipfs : IpfsLink) (err : Option GoError)
    (h : (InitNode env w ipfsBootstrap swarmKey).out = Outcome.returned (ipfs, err)) :
    err = none ∧ ipfs.Ctx = Context.withCancel Context.background ∧
      ∃ nd, ipfs.IpfsCore = some ⟨nd⟩ ∧ ipfs.IpfsNode = some nd := by
  unfold InitNode at h
  simp only [] at h
  split at h
  · split at h
    · simp at h
    · split at h
      · simp at h
      · split at h
        · simp at h
        · obtain ⟨nd, h1, h2⟩ := spawnEphemeral_returned_nil _ _ _ _ _ _ _ (by assumption)
          subst h1 h2
          simp at h
          obtain ⟨h3, h4⟩ := h
          subst h3 h4
          exact ⟨rfl, rfl, nd, rfl, rfl⟩
  · split at h
    · simp at h
    · split at h
      · simp at h
      · obtain ⟨nd, h1, h2⟩ := spawnEphemeral_returned_nil _ _ _ _ _ _ _ (by assumption)
        subst h1 h2
        simp at h
        obtain ⟨h3, h4⟩ := h
        subst h3 h4
        exact ⟨rfl, rfl, nd, rfl, rfl⟩

theorem IsNode.shape (ipfs : IpfsLink) (h : IsNode ipfs) :
    ∃ nd, ipfs = ⟨Context.withCancel Context.background, some ⟨nd⟩, some nd⟩ := by
  obtain ⟨env, w, bs, sk, err, hout⟩ := h
  obtain ⟨_, h1, nd, h2, h3⟩ := InitNode_returned env w bs sk ipfs err hout
  refine ⟨nd, ?_⟩
  cases ipfs
  simp_all

theorem seedLink_isNode : IsNode seedLink :=
  ⟨okEnv, freshWorld, [], false, none, rfl⟩

/-- C2: on every node and payload, if the store's `Add` fails `AddIPFS`
panics, without returning and without starting any `Provide`; if `Add`
succeeds with the path of identifier `c`, `AddIPFS` starts exactly one
detached `Provide`, of `c` under the node's context, and returns `(c, nil)`,
and both hold whatever the outcome of `Provide`. -/
theorem AddIPFS_add_then_provide (env : Env) (w : World) (ipfs : IpfsLink) (message : Bytes)
    (hnode : IsNode ipfs) :
    ∃ api, ipfs.IpfsCore = some api ∧
      (∀ err, (unixfsAdd env w api message).2 = Except.error err →
        (∃ msg, (AddIPFS env w ipfs message).out = Outcome.panicked msg) ∧
        provides (AddIPFS env w ipfs message).events = []) ∧
      (∀ c, (unixfsAdd env w api message).2 = Except.ok c →
        (AddIPFS env w ipfs message).out = Outcome.returned (c, none) ∧
        provides (AddIPFS env w ipfs message).events = [(ipfs.Ctx, c)] ∧
        ∀ outcome : ProvideOutcome,
          (AddIPFS { env with provide := outcome } w ipfs message).out =
            Outcome.returned (c, none) ∧
          provides (AddIPFS { env with provide := outcome } w ipfs message).events =
            [(ipfs.Ctx, c)]) := by
  obtain ⟨nd, rfl⟩ := IsNode.shape ipfs hnode
  refine ⟨⟨nd⟩, rfl, ?_, ?_⟩
  · intro err herr
    simp only [AddIPFS, herr]
    exact ⟨⟨_, rfl⟩, rfl⟩
  · intro c hc
    have hc2 : ∀ outcome : ProvideOutcome,
        (unixfsAdd { env with provide := outcome } w ⟨nd⟩ message).2 = Except.ok c :=
      fun _ => hc
    refine ⟨?_, ?_, fun outcome => ⟨?_, ?_⟩⟩
    · simp only [AddIPFS, hc]
    · simp only [AddIPFS, hc]
      rfl
    · simp only [AddIPFS, hc2 outcome]
    · simp only [AddIPFS, hc2 outcome]
      rfl

/-- C2 at a concrete call: the seed publishes the demo payload, and the
returned pair is the same when `Provide` never completes. -/
theorem AddIPFS_add_then_provide_witness :
    (AddIPFS { okEnv with provide := ProvideOutcome.neverCompletes } freshWorld seedLink
      demoPayload).out = Outcome.returned (IpfsPathOf ⟨demoPayload⟩, none) ∧
    provides (AddIPFS okEnv freshWorld seedLink demoPayload).events =
      [(Context.withCancel Context.background, IpfsPathOf ⟨demoPayload⟩)] :=
  match AddIPFS_add_then_provide okEnv freshWorld seedLink demoPayload seedLink_isNode with
  | ⟨_, hapi, _, hok⟩ =>
    have hc := hok (IpfsPathOf ⟨demoPayload⟩) (by cases hapi; rfl)
    ⟨(hc.2.2 ProvideOutcome.neverCompletes).1, hc.2.1⟩

/-! ## Resolving (C3, C9) -/

theorem gets_append (a b : List Event) : gets (a ++ b) = gets a ++ gets b := by
  induction a with
  | nil => rfl
  | cons e es ih => cases e <;> simp [gets, ih]

theorem writeAttempts_append (a b : List Event) :
    writeAttempts (a ++ b) = writeAttempts a ++ writeAttempts b := by
  induction a with
  | nil => rfl
  | cons e es ih => cases e <;> simp [writeAttempts, ih]

theorem materialized_append (a b : List Event) :
    materialized (a ++ b) = materialized a ++ materialized b := by
  induction a with
  | nil => rfl
  | cons e es ih => simp [materialized, ih]

/-- The events of `GetIPFS` on a link with a core API. -/
theorem GetIPFS_events (env : Env) (w : World) (ctx : Context) (api : CoreAPI)
    (nd : Option IpfsNode) (c : Cid) :
    ∃ evErr, (GetIPFS env w ⟨ctx, some api, nd⟩ c).events =
        [Event.unixfsGet (Context.withDeadline ctx (env.now + Second * 30)) (IpfsPathOf c)] ++
          evErr ++
          [Event.filesWriteTo (unixfsGet env w api (IpfsPathOf c)).1 c.String
              (filesWriteTo env (unixfsGet env w api (IpfsPathOf c)).1),
            Event.printf "Wrote file to %s\n"] ∧
      gets evErr = [] ∧ writeAttempts evErr = [] ∧ materialized evErr = [] := by
  simp only [GetIPFS]
  cases (unixfsGet env w api (IpfsPathOf c)).2 with
  | none => exact ⟨[], rfl, rfl, rfl, rfl⟩
  | some e => exact ⟨_, rfl, rfl, rfl, rfl⟩

theorem GetIPFS_out (env : Env) (w : World) (ctx : Context) (api : CoreAPI)
    (nd : Option IpfsNode) (c : Cid) :
    (GetIPFS env w ⟨ctx, some api, nd⟩ c).out =
      Outcome.returned (unixfsGet env w api (IpfsPathOf c)) := rfl

/-- C3: on every node, identifier `c` and call time, `GetIPFS` issues exactly
one `Get`, for the path of `c`, under a context derived from the node's `Ctx`
by `WithDeadline` whose deadline is the call time plus 30 seconds, and returns
exactly the handle and the error of that `Get`: the returned error is non-nil
if and only if the `Get` failed, and the handle is the one `Get` returned. -/
theorem GetIPFS_single_get (env : Env) (w : World) (ipfs : IpfsLink) (c : Cid)
    (hnode : IsNode ipfs) :
    ∃ api, ipfs.IpfsCore = some api ∧
      gets (GetIPFS env w ipfs c).events =
        [(Context.withDeadline ipfs.Ctx (env.now + 30 * Second), IpfsPathOf c)] ∧
      (Context.withDeadline ipfs.Ctx (env.now + 30 * Second)).deadline =
        some (env.now + 30 * Second) ∧
      (GetIPFS env w ipfs c).out = Outcome.returned (unixfsGet env w api (IpfsPathOf c)) ∧
      ∀ f err, (GetIPFS env w ipfs c).out = Outcome.returned (f, err) →
        f = (unixfsGet env w api (IpfsPathOf c)).1 ∧
        (err ≠ none ↔ (unixfsGet env w api (IpfsPathOf c)).2 ≠ none) := by
  obtain ⟨nd, rfl⟩ := IsNode.shape ipfs hnode
  refine ⟨⟨nd⟩, rfl, ?_, ?_, GetIPFS_out env w _ ⟨nd⟩ _ c, ?_⟩
  · obtain ⟨evErr, h1, h2, _, _⟩ := GetIPFS_events env w
      (Context.withCancel Context.background) ⟨nd⟩ (some nd) c
    rw [h1]
    simp [gets_append, h2, gets, Nat.mul_comm]
  · simp [Context.deadline]
  · intro f err h
    rw [GetIPFS_out] at h
    simp only [Outcome.returned.injEq] at h
    rw [h]
    exact ⟨rfl, Iff.rfl⟩

/-- C3 at a concrete call: the seed resolves the identifier of the demo
payload at time 1000. -/
theorem GetIPFS_single_get_witness :
    gets (GetIPFS okEnv seededWorld seedLink demoCid).events =
      [(Context.withDeadline (Context.withCancel Context.background) (1000 + 30 * Second),
        IpfsPathOf demoCid)] ∧
    (GetIPFS okEnv seededWorld seedLink demoCid).out =
      Outcome.returned (some ⟨demoPayload⟩, none) :=
  match GetIPFS_single_get okEnv seededWorld seedLink demoCid seedLink_isNode with
  | ⟨_, _, hgets, _, _, _⟩ => ⟨hgets, rfl⟩

/-- C9 fails as stated: with local storage full, `GetIPFS` on the seed returns
the handle of the demo payload and a nil error, and nothing has been
materialized. -/
theorem GetIPFS_nil_error_nothing_materialized :
    IsNode seedLink ∧
    (GetIPFS diskFullEnv seededWorld seedLink demoCid).out =
      Outcome.returned (some ⟨demoPayload⟩, none) ∧
    materialized (GetIPFS diskFullEnv seededWorld seedLink demoCid).events = [] :=
  ⟨seedLink_isNode, rfl, rfl⟩

theorem unixfsGet_nil_error (env : Env) (w : World) (api : CoreAPI) (path : ResolvedPath)
    (h : (unixfsGet env w api path).2 = none) : ∃ nd, (unixfsGet env w api path).1 = some nd := by
  unfold unixfsGet at h ⊢
  repeat' split at h
  all_goals simp_all

/-- C9 as amended: every call of `GetIPFS` on a node attempts exactly one
write to local storage, of the handle it returns, at the path `c.String()`,
and returns the same values whatever the result of that write; whenever
`GetIPFS` returns a nil error and that write did not fail, the retrieved
content has been materialized at `c.String()`; the path depends on `c` only,
so resolving the same identifier again targets the same path. -/
theorem GetIPFS_materializes (env : Env) (w : World) (ipfs : IpfsLink) (c : Cid)
    (f : Option FileNode) (err : Option GoError) (hnode : IsNode ipfs)
    (hout : (GetIPFS env w ipfs c).out = Outcome.returned (f, err)) :
    writeAttempts (GetIPFS env w ipfs c).events = [(c.String, f)] ∧
    (∀ res : Option GoError,
      (GetIPFS { env with filesWriteTo := res } w ipfs c).out = Outcome.returned (f, err)) ∧
    (err = none → env.filesWriteTo = none →
      ∃ nd, f = some nd ∧ materialized (GetIPFS env w ipfs c).events = [(c.String, nd.bytes)]) ∧
    (∀ (env2 : Env) (w2 : World) (ipfs2 : IpfsLink), IsNode ipfs2 →
      (writeAttempts (GetIPFS env2 w2 ipfs2 c).events).map Prod.fst = [c.String]) := by
  obtain ⟨nd, rfl⟩ := IsNode.shape ipfs hnode
  rw [GetIPFS_out] at hout
  simp only [Outcome.returned.injEq] at hout
  obtain ⟨evErr, h1, _, h3, h4⟩ := GetIPFS_events env w
    (Context.withCancel Context.background) ⟨nd⟩ (some nd) c
  refine ⟨?_, ?_, ?_, ?_⟩
  · rw [h1]
    simp [writeAttempts_append, h3, writeAttempts, hout]
  · intro res
    rw [GetIPFS_out, ← hout]
    rfl
  · intro herr hwrite
    have hget2 : (unixfsGet env w ⟨nd⟩ (IpfsPathOf c)).2 = none := by rw [hout]; exact herr
    obtain ⟨fnd, hf⟩ := unixfsGet_nil_error env w ⟨nd⟩ (IpfsPathOf c) hget2
    refine ⟨fnd, by rw [← hf, hout], ?_⟩
    rw [h1]
    simp [materialized_append, h4, materialized, hf, filesWriteTo, hwrite]
  · intro env2 w2 ipfs2 hnode2
    obtain ⟨nd2, rfl⟩ := IsNode.shape ipfs2 hnode2
    obtain ⟨evErr2, k1, _, k3, _⟩ := GetIPFS_events env2 w2
      (Context.withCancel Context.background) ⟨nd2⟩ (some nd2) c
    rw [k1]
    simp [writeAttempts_append, k3, writeAttempts]

/-- C9 as amended, at a concrete call: the seed resolves the identifier of
the demo payload and the write succeeds. -/
theorem GetIPFS_materializes_witness :
    writeAttempts (GetIPFS okEnv seededWorld seedLink demoCid).events =
      [(demoCid.String, some ⟨demoPayload⟩)] ∧
    ∃ nd : FileNode, some (⟨demoPayload⟩ : FileNode) = some nd ∧
      materialized (GetIPFS okEnv seededWorld seedLink demoCid).events =
        [(demoCid.String, nd.bytes)] :=
  have h := GetIPFS_materializes okEnv seededWorld seedLink demoCid (some ⟨demoPayload⟩) none
    seedLink_isNode rfl
  ⟨h.1, h.2.2.1 rfl rfl⟩

/-! ## Round trip (C1) -/

/-- Spawning a node leaves the stores of the content network as they are. -/
theorem spawnEphemeral_blocks (env : Env) (w : World) (ctx : Context)
    (btstrap : Option AddrInfo) (swarmKey : Bool) :
    (spawnEphemeral env w ctx btstrap swarmKey).world.blocks = w.blocks := by
  rcases spawnEphemeral_exits env w ctx btstrap swarmKey with
    ⟨e, _, hs⟩ | ⟨e, _, _, hs⟩ | ⟨rp, e, _, _, _, hs⟩ |
    ⟨rp, node0, p, e, hp, _, _, _, _, hs⟩ |
    ⟨rp, node0, p, hp, _, _, _, _, hs⟩ | ⟨rp, node0, hp, _, _, _, hs⟩
  all_goals rw [hs]
  all_goals simp only [onceDone]
  split <;> rfl

/-- A client bootstrapped on a peer reaches it: when `spawnEphemeral` returns
a node built on the peer `p` and the explicit connect succeeded, the node is
connected to `p`. -/
theorem spawnEphemeral_reaches_peer (env : Env) (w : World) (ctx : Context) (p : AddrInfo)
    (swarmKey : Bool) (api : Option CoreAPI) (node : IpfsNode) (err : Option GoError)
    (h : (spawnEphemeral env w ctx (some p) swarmKey).out =
      Outcome.returned (api, some node, err))
    (hconn : env.swarmConnect = none) :
    reaches (spawnEphemeral env w ctx (some p) swarmKey).world node.Identity p.ID = true := by
  rcases spawnEphemeral_exits env w ctx (some p) swarmKey with
    ⟨e, _, hs⟩ | ⟨e, _, _, hs⟩ | ⟨rp, e, _, _, _, hs⟩ |
    ⟨rp, node0, q, e, hp, _, _, _, _, hs⟩ |
    ⟨rp, node0, q, hp, _, _, _, _, hs⟩ | ⟨rp, node0, hp, _, _, _, hs⟩
  all_goals rw [hs] at h ⊢
  all_goals simp at h
  · cases hp
    obtain ⟨_, hn, _⟩ := h
    subst hn
    rw [hconn]
    simp [reaches]
  · cases hp

theorem installedConfigs_WriteFile (env : Env) (fileName : String) (b : Bytes) :
    installedConfigs (WriteFile env fileName b).1 = [] := by
  unfold WriteFile
  repeat' split
  all_goals rfl

theorem installedConfigs_AddIPFS (env : Env) (w : World) (ipfs : IpfsLink) (message : Bytes) :
    installedConfigs (AddIPFS env w ipfs message).events = [] := by
  unfold AddIPFS
  split
  · rfl
  · simp only []
    split <;> rfl

theorem installedConfigs_GetIPFS (env : Env) (w : World) (ipfs : IpfsLink) (c : Cid) :
    installedConfigs (GetIPFS env w ipfs c).events = [] := by
  unfold GetIPFS
  split
  · rfl
  · simp only []
    split <;> rfl

/-- The bootstrap configuration that a run of `InitNode` installs, if any:
the one of a bootstrap node when the bootstrap bytes are empty, the one of a
client of the parsed peer otherwise. -/
theorem installedConfigs_InitNode (env : Env) (w : World) (ipfsBootstrap : Bytes)
    (swarmKey : Bool) :
    installedConfigs (InitNode env w ipfsBootstrap swarmKey).events = [] ∨
    (ipfsBootstrap = [] ∧
      installedConfigs (InitNode env w ipfsBootstrap swarmKey).events =
        [bootstrapConfigFor none]) ∨
    (∃ p, ipfsBootstrap ≠ [] ∧ env.unmarshalAddrInfo ipfsBootstrap = Except.ok p ∧
      installedConfigs (InitNode env w ipfsBootstrap swarmKey).events =
        [bootstrapConfigFor (some p)]) := by
  unfold InitNode
  simp only []
  split
  · rename_i hlen
    have hne : ipfsBootstrap ≠ [] := by
      intro h0
      rw [h0] at hlen
      simp at hlen
    split
    · left
      rfl
    · rename_i p hp
      rcases installedConfigs_spawnEphemeral env w (Context.withCancel Context.background)
        (some p) swarmKey with h0 | ⟨h1, _⟩
      · left
        repeat' split
        all_goals simp [installedConfigs_append, installedConfigs, h0]
      · right
        right
        refine ⟨p, hne, hp, ?_⟩
        repeat' split
        all_goals simp [installedConfigs_append, installedConfigs, h1]
  · rename_i hlen
    have he : ipfsBootstrap = [] := by
      cases ipfsBootstrap with
      | nil => rfl
      | cons a l => simp at hlen
    rcases installedConfigs_spawnEphemeral env w (Context.withCancel Context.background)
      none swarmKey with h0 | ⟨h1, _⟩
    · left
      repeat' split
      all_goals simp [installedConfigs_append, installedConfigs, h0]
    · right
      left
      refine ⟨he, ?_⟩
      repeat' split
      all_goals simp [installedConfigs_append, installedConfigs, h1]

theorem installedConfigs_bootstrap_main (env : Env) (w : World) (swarmKey : Bool) :
    installedConfigs (bootstrap_main env w swarmKey).events =
      installedConfigs (InitNode env w [] swarmKey).events := by
  unfold bootstrap_main
  simp only []
  repeat' split
  all_goals simp [installedConfigs_append, installedConfigs_WriteFile, installedConfigs_AddIPFS,
    installedConfigs]

theorem installedConfigs_non_bs_main (env : Env) (w : World) (IPFSBootstrap : String)
    (swarmKey : Bool) :
    installedConfigs (non_bs_main env w IPFSBootstrap swarmKey).events =
      installedConfigs (InitNode env w (env.osReadFile IPFSBootstrap).1 swarmKey).events := by
  unfold non_bs_main
  simp only []
  repeat' split
  all_goals simp [installedConfigs_append, installedConfigs_GetIPFS, installedConfigs]

theorem installedConfigs_main (env : Env) (w : World) (mode IPFSbootstrap : String)
    (swarmKey : Bool) :
    installedConfigs (main env w mode IPFSbootstrap swarmKey).events =
      if mode = "bootstrap" then installedConfigs (InitNode env w [] swarmKey).events
      else installedConfigs (InitNode env w (env.osReadFile IPFSbootstrap).1 swarmKey).events := by
  unfold main
  simp only []
  split
  all_goals split
  all_goals simp [installedConfigs_append, installedConfigs, installedConfigs_bootstrap_main,
    installedConfigs_non_bs_main]

/-- C5 fails as stated: a node started in the client role with an unreadable
bootstrap file, or with an empty one, gets an empty bootstrap peer set and a
`MinPeerThreshold` of 0. -/
theorem main_client_without_bootstrap_peer :
    (installedConfigs (main noFileEnv freshWorld "client" "./IDBootstrapIPFS" false).events).map
        (fun cfg => (cfg.BootstrapPeers (), cfg.MinPeerThreshold)) = [([], 0)] ∧
    (installedConfigs (main emptyFileEnv freshWorld "client" "./IDBootstrapIPFS" false).events).map
        (fun cfg => (cfg.BootstrapPeers (), cfg.MinPeerThreshold)) = [([], 0)] :=
  ⟨rfl, rfl⟩

/-- C5 as amended: in every run of the program, the bootstrap configuration
that the node gets is fixed by its role and by the bytes read from the
bootstrap file.  A node started in the bootstrap role gets an empty peer set
and a threshold of 0; a node started in the client role gets the one-element
peer set of the peer parsed from the bootstrap file and a threshold of 1 when
bytes were read from that file, and an empty peer set and a threshold of 0
when the file is empty or unreadable (no bytes read). -/
theorem main_role_bootstrap_config (env : Env) (w : World) (mode IPFSbootstrap : String)
    (swarmKey : Bool) (cfg : BootstrapConfig)
    (h : cfg ∈ installedConfigs (main env w mode IPFSbootstrap swarmKey).events) :
    (mode = "bootstrap" → cfg.BootstrapPeers () = [] ∧ cfg.MinPeerThreshold = 0) ∧
    (mode ≠ "bootstrap" → (env.osReadFile IPFSbootstrap).1 = [] →
      cfg.BootstrapPeers () = [] ∧ cfg.MinPeerThreshold = 0) ∧
    (mode ≠ "bootstrap" → (env.osReadFile IPFSbootstrap).1 ≠ [] →
      ∃ p, env.unmarshalAddrInfo (env.osReadFile IPFSbootstrap).1 = Except.ok p ∧
        cfg.BootstrapPeers () = [p] ∧ cfg.MinPeerThreshold = 1) ∧
    (installedConfigs (main env w mode IPFSbootstrap swarmKey).events).length = 1 := by
  rw [installedConfigs_main] at h ⊢
  by_cases hmode : mode = "bootstrap"
  · simp only [hmode, if_true] at h ⊢
    rcases installedConfigs_InitNode env w [] swarmKey with h0 | ⟨_, h1⟩ | ⟨p, hne, _, _⟩
    · rw [h0] at h
      cases h
    · rw [h1] at h ⊢
      have hcfg : cfg = bootstrapConfigFor none := List.mem_singleton.1 h
      subst hcfg
      simp [bootstrapConfigFor]
    · exact absurd rfl hne
  · simp only [hmode, if_false] at h ⊢
    rcases installedConfigs_InitNode env w (env.osReadFile IPFSbootstrap).1 swarmKey with
      h0 | ⟨he, h1⟩ | ⟨p, hne, hp, h1⟩
    · rw [h0] at h
      cases h
    · rw [h1] at h ⊢
      have hcfg : cfg = bootstrapConfigFor none := List.mem_singleton.1 h
      subst hcfg
      simp [bootstrapConfigFor, he]
    · rw [h1] at h ⊢
      have hcfg : cfg = bootstrapConfigFor (some p) := List.mem_singleton.1 h
      subst hcfg
      simp [bootstrapConfigFor, hne, hp]

/-- C5 as amended, at a concrete run: a client started with a bootstrap file
that holds the address of the seed. -/
theorem main_role_bootstrap_config_witness :
    ∃ p, clientEnv.unmarshalAddrInfo (clientEnv.osReadFile "./IDBootstrapIPFS").1 =
        Except.ok p ∧
      (bootstrapConfigFor (some seedAddr)).BootstrapPeers () = [p] ∧
      (bootstrapConfigFor (some seedAddr)).MinPeerThreshold = 1 :=
  (main_role_bootstrap_config clientEnv freshWorld "client" "./IDBootstrapIPFS" false
    (bootstrapConfigFor (some seedAddr)) (List.mem_singleton.2 rfl)).2.2.1
      (by decide) (by decide)

end IPFS_Test
